import Mathlib

/-!
# RayTracing_Optix7.h: pipeline lifecycle (Init / Launch / Cleanup)

Shallow embedding of `PluginSource/source/Optix/RayTracing_Optix7.h`.

The three operations of the header are sequences of CUDA / OptiX calls on
process-wide globals.  The device is modelled as a resource-tracking state
(live memory allocations, streams and OptiX objects, plus the log of calls
issued); the result code of every call is supplied by an oracle, so that
"all device calls succeed" and "the k-th call fails" are both expressible.
Two host statements can end an operation with no device call failing and are
modelled as such: `host_pixels.resize` (`std::length_error`) in `Launch` and
the `std::string` built from `_getcwd` in `Init`.
Machine integers are `Int`/`Nat` with explicit wrap-around.
-/

namespace Optix7

/-! ## Machine arithmetic (x64: 32-bit `int`, 64-bit `size_t`) -/

/-- Value of an `int` expression: signed 32-bit wrap-around. -/
def wrapInt32 (x : Int) : Int := (x + 2147483648) % 4294967296 - 2147483648

/-- Conversion of an `int` to `size_t`. -/
def toSizeT (x : Int) : Nat := (x % 18446744073709551616).toNat

/-- Conversion of an `int` to `unsigned int`. -/
def toUInt32 (x : Int) : Nat := (x % 4294967296).toNat

/-- Product of two `size_t` values. -/
def mulSizeT (a b : Nat) : Nat := (a * b) % 18446744073709551616

/-! ## Object layout -/

/-- Size and alignment of a C++ object type, in bytes. -/
structure CType where
  size : Nat
  align : Nat
deriving DecidableEq, Repr

/-- Round `n` up to the next multiple of `a`. -/
def alignUp (n a : Nat) : Nat := (n + a - 1) / a * a

/-- Offset of the next member of alignment `a` after `off` bytes are used. -/
def memberOffset (off : Nat) (f : CType) : Nat := alignUp off f.align

/-- Standard-layout struct: members in declaration order, each at the next
offset aligned for it; the size is rounded up to the largest alignment. -/
def structOf (fields : List CType) : CType :=
  let al := fields.foldl (fun a f => max a f.align) 1
  let sz := fields.foldl (fun off f => memberOffset off f + f.size) 0
  { size := alignUp sz al, align := al }

/-- The scalar types of the header (x64). -/
def c_float : CType := { size := 4, align := 4 }

def c_int : CType := { size := 4, align := 4 }

def c_unsigned : CType := { size := 4, align := 4 }

def c_pointer : CType := { size := 8, align := 8 }

def c_uchar4 : CType := { size := 4, align := 4 }

/-- From `optix.h`: size in bytes of the header of a binding-table record. -/
def OPTIX_SBT_RECORD_HEADER_SIZE : Nat := 32

/-- From `optix.h`: alignment in bytes required of a binding-table record. -/
def OPTIX_SBT_RECORD_ALIGNMENT : Nat := 16

/-- Layout of `struct Params { uchar4* image; unsigned int image_width; }`. -/
def Params : CType := structOf [c_pointer, c_unsigned]

/-- Layout of `struct RayGenData { float r, g, b; }`. -/
def RayGenData : CType := structOf [c_float, c_float, c_float]

/-- Layout of the `header` member:
`__align__(OPTIX_SBT_RECORD_ALIGNMENT) char header[OPTIX_SBT_RECORD_HEADER_SIZE]`. -/
def headerMember : CType :=
  { size := OPTIX_SBT_RECORD_HEADER_SIZE, align := OPTIX_SBT_RECORD_ALIGNMENT }

/-- Layout of `template <typename T> struct SbtRecord { header; T data; }`. -/
def SbtRecord (T : CType) : CType := structOf [headerMember, T]

/-- Offset of the member `data` inside `SbtRecord<T>`. -/
def SbtRecord.dataOffset (T : CType) : Nat := memberOffset headerMember.size T

/-- Layout of `typedef SbtRecord<RayGenData> RayGenSbtRecord`. -/
def RayGenSbtRecord : CType := SbtRecord RayGenData

/-- Layout of `typedef SbtRecord<int> MissSbtRecord`. -/
def MissSbtRecord : CType := SbtRecord c_int

/-! ## Symbolic bytes -/

/-- A `float` literal of the source, kept as written: `digits / 10 ^ scale`. -/
structure FloatLit where
  digits : Nat
  scale : Nat
deriving DecidableEq, Repr

/-- One byte of memory.  Values produced by the device runtime (packed
headers, rendered pixels) are opaque and kept symbolic. -/
inductive Byte where
  | undef                              -- never written
  | zero                               -- value-initialised
  | header (programGroup : Nat) (i : Nat) -- byte `i` of the header packed for a program group
  | f32 (lit : FloatLit) (i : Nat)     -- byte `i` of a float
  | ptr (p : Nat) (i : Nat)            -- byte `i` of a device pointer
  | u32 (v : Nat) (i : Nat)            -- byte `i` of an unsigned int
  | dev (addr : Nat) (i : Nat)         -- byte `i` read back from the device allocation at `addr`
deriving DecidableEq, Repr

/-- A local object of the given type, not yet initialised. -/
def uninitObject (t : CType) : List Byte := List.replicate t.size Byte.undef

/-- Store `bs` into an object at byte offset `off`. -/
def writeAt (obj : List Byte) (off : Nat) (bs : List Byte) : List Byte :=
  obj.take off ++ bs ++ obj.drop (off + bs.length)

/-- The bytes `optixSbtRecordPackHeader` writes for a program group. -/
def packedHeader (programGroup : Nat) : List Byte :=
  (List.range OPTIX_SBT_RECORD_HEADER_SIZE).map (Byte.header programGroup)

/-- Object representation of a `float`, a device pointer, an `unsigned int`. -/
def floatBytes (lit : FloatLit) : List Byte := (List.range 4).map (Byte.f32 lit)

def pointerBytes (p : Nat) : List Byte := (List.range 8).map (Byte.ptr p)

def unsignedBytes (v : Nat) : List Byte := (List.range 4).map (Byte.u32 v)

/-- The pixel type `uchar4`. -/
structure uchar4 where
  x : Byte
  y : Byte
  z : Byte
  w : Byte
deriving DecidableEq, Repr

/-- A value-initialised pixel. -/
def uchar4.zero : uchar4 := { x := Byte.zero, y := Byte.zero, z := Byte.zero, w := Byte.zero }

/-- Pixel `k` of the device array starting at `src`, as read back by a copy. -/
def readPixel (src k : Nat) : uchar4 :=
  { x := Byte.dev src (4 * k), y := Byte.dev src (4 * k + 1),
    z := Byte.dev src (4 * k + 2), w := Byte.dev src (4 * k + 3) }

/-- `std::vector<uchar4>::max_size()` on x64: the largest element count a
vector of 4-byte elements accepts, `(2^64 - 1) / 4`.  Every non-negative
`int` is below it and every negative `int` converted to `size_t` is above it. -/
def vector_max_size : Nat := 4611686018427387903

/-- `std::vector<uchar4>::resize(n)`: throws `std::length_error` (`none`) when
`n` exceeds `max_size()`; otherwise keeps the first `n` elements and pads
with value-initialised ones.  Running out of host memory (`std::bad_alloc`)
is outside the model. -/
def resize (v : List uchar4) (n : Nat) : Option (List uchar4) :=
  if vector_max_size < n then none
  else some (v.take n ++ List.replicate (n - v.length) uchar4.zero)

/-- The `int` product `width * height` is a size `resize` accepts: converted
to `size_t` it does not exceed `max_size()`. -/
def resizable (w h : Int) : Prop := toSizeT (wrapInt32 (w * h)) ≤ vector_max_size

instance (w h : Int) : Decidable (resizable w h) := by
  unfold resizable; infer_instance

/-- Host side of `cudaMemcpy(host_pixels.data(), src, count, DeviceToHost)`:
every pixel that lies wholly inside the first `count` bytes is overwritten. -/
def copyToHost (src count : Nat) : Nat → List uchar4 → List uchar4
  | _, [] => []
  | k, p :: ps =>
    (if 4 * (k + 1) ≤ count then readPixel src k else p) :: copyToHost src count (k + 1) ps

/-! ## OptiX descriptor types (from `optix.h`) -/

/-- The two values of `OptixProgramGroupKind` the header uses. -/
inductive ProgramGroupKind where
  | raygen
  | miss
deriving DecidableEq, Repr

/-- The fields of `OptixPipelineCompileOptions` the source assigns. -/
structure OptixPipelineCompileOptions where
  usesMotionBlur : Bool := false
  traversableGraphFlags : Nat := 0
  numPayloadValues : Nat := 0
  numAttributeValues : Nat := 0
  exceptionFlags : Nat := 0
  pipelineLaunchParamsVariableName : Option String := none
deriving DecidableEq, Repr

/-- Flag values from `optix.h`. -/
def OPTIX_TRAVERSABLE_GRAPH_FLAG_ALLOW_SINGLE_LEVEL_INSTANCING : Nat := 2

def OPTIX_EXCEPTION_FLAG_NONE : Nat := 0

/-- The type `OptixShaderBindingTable`; `{}` zero-initialises every field. -/
structure OptixShaderBindingTable where
  raygenRecord : Nat := 0
  exceptionRecord : Nat := 0
  missRecordBase : Nat := 0
  missRecordStrideInBytes : Nat := 0
  missRecordCount : Nat := 0
  hitgroupRecordBase : Nat := 0
  hitgroupRecordStrideInBytes : Nat := 0
  hitgroupRecordCount : Nat := 0
  callablesRecordBase : Nat := 0
  callablesRecordStrideInBytes : Nat := 0
  callablesRecordCount : Nat := 0
deriving DecidableEq, Repr

/-! ## The device -/

/-- A CUDA / OptiX call with the arguments the source passes. -/
inductive Call where
  | cudaFree (devPtr : Nat)
  | optixInit
  | optixDeviceContextCreate (logCallbackLevel : Nat)
  | optixModuleCreateFromPTX (context : Nat) (options : OptixPipelineCompileOptions)
  | optixProgramGroupCreate (context : Nat) (kind : ProgramGroupKind) (module : Nat)
      (entryFunctionName : Option String)
  | optixPipelineCreate (context : Nat) (maxTraceDepth : Nat) (programGroups : List Nat)
  | optixUtilAccumulateStackSizes (programGroup : Nat)
  | optixUtilComputeStackSizes (maxTraceDepth maxCCDepth maxDCDepth : Nat)
  | optixPipelineSetStackSize (pipeline : Nat) (maxTraversableDepth : Nat)
  | cudaMalloc (size : Nat)
  | optixSbtRecordPackHeader (programGroup : Nat)
  | cudaMemcpyHostToDevice (dst : Nat) (count : Nat)
  | cudaMemcpyDeviceToHost (src : Nat) (count : Nat)
  | cudaStreamCreate
  | optixLaunch (pipeline stream pipelineParams pipelineParamsSize : Nat)
      (sbt : OptixShaderBindingTable) (width height depth : Nat)
  | cudaDeviceSynchronize
  | cudaSetDevice (device : Nat)
  | cudaStreamSynchronize (stream : Nat)
  | optixPipelineDestroy (pipeline : Nat)
  | optixProgramGroupDestroy (programGroup : Nat)
  | optixModuleDestroy (module : Nat)
  | optixDeviceContextDestroy (context : Nat)
deriving DecidableEq, Repr

/-- What a device allocation is used for (bookkeeping only). -/
inductive Role where
  | raygenRecord
  | missRecord
  | framebuffer
  | launchParams
deriving DecidableEq, Repr

/-- A live device memory allocation.  `bytes` is the prefix written so far by
host-to-device copies; the rest of the allocation is uninitialised. -/
structure Allocation where
  addr : Nat
  size : Nat
  role : Role
  bytes : List Byte
deriving DecidableEq, Repr

/-- The kinds of OptiX object the header creates. -/
inductive ObjectKind where
  | context
  | module
  | programGroup (kind : ProgramGroupKind)
  | pipeline
deriving DecidableEq, Repr

/-- A live OptiX object. -/
structure Object where
  handle : Nat
  kind : ObjectKind
deriving DecidableEq, Repr

/-- Resource-tracking device state.  Handles and addresses are drawn from one
counter starting at 1, so they are non-null and never reused. -/
structure Device where
  next : Nat := 1
  allocs : List Allocation := []
  streams : List Nat := []
  objects : List Object := []
  -- every call issued so far, with the result code it returned
  trace : List (Call × Nat) := []
deriving DecidableEq, Repr

/-- `cudaFree`: a null pointer is a no-op, otherwise the allocation is released. -/
def Device.free (d : Device) (devPtr : Nat) : Device :=
  { d with allocs :=
      if devPtr = 0 then d.allocs
      else d.allocs.filter (fun a => decide (a.addr ≠ devPtr)) }

/-- `cudaMalloc`: a new allocation at a fresh address.  Every successful call,
whatever the size requested, is recorded as a live allocation. -/
def Device.malloc (role : Role) (size : Nat) (addr : Nat) (d : Device) : Device :=
  { d with allocs := d.allocs ++ [{ addr := addr, size := size, role := role, bytes := [] }] }

/-- Device side of a host-to-device `cudaMemcpy` of `count` bytes from `src`. -/
def Device.upload (dst : Nat) (src : List Byte) (count : Nat) (d : Device) : Device :=
  { d with allocs := d.allocs.map (fun a =>
      if a.addr = dst then { a with bytes := src.take count ++ a.bytes.drop count } else a) }

/-- `cudaStreamCreate`: a new stream with a fresh handle. -/
def Device.newStream (h : Nat) (d : Device) : Device :=
  { d with streams := d.streams ++ [h] }

/-- `optix*Create`: a new OptiX object with a fresh handle. -/
def Device.create (kind : ObjectKind) (h : Nat) (d : Device) : Device :=
  { d with objects := d.objects ++ [{ handle := h, kind := kind }] }

/-- `optix*Destroy`: the object with the given handle is no longer live. -/
def Device.destroy (h : Nat) (d : Device) : Device :=
  { d with objects := d.objects.filter (fun o => decide (o.handle ≠ h)) }

/-- The allocation at a device address, if live. -/
def Device.lookup (d : Device) (addr : Nat) : Option Allocation :=
  d.allocs.find? (fun a => decide (a.addr = addr))

/-- No resource of any kind is live. -/
def Device.noLiveResources (d : Device) : Prop :=
  d.allocs = [] ∧ d.streams = [] ∧ d.objects = []

instance (d : Device) : Decidable d.noLiveResources := by
  unfold Device.noLiveResources; infer_instance

/-! ## Program state -/

/-- The globals of the header, the device they act on, and the one piece of
the host environment the header reads: `cwd` is what `_getcwd(NULL, 0)`
returns, `none` standing for the null pointer it returns on failure. -/
structure State where
  cwd : Option String := some "."
  context : Nat := 0
  module : Nat := 0
  pipeline_compile_options : OptixPipelineCompileOptions := {}
  raygen_prog_group : Nat := 0
  miss_prog_group : Nat := 0
  pipeline : Nat := 0
  sbt : OptixShaderBindingTable := {}
  device_pixels : Nat := 0
  host_pixels : List uchar4 := []
  width : Int := 512
  height : Int := 384
  dev : Device := {}
deriving DecidableEq, Repr

/-- The state at program start: globals as initialised, nothing live, the
working directory available. -/
def State.init : State := {}

/-- The exception thrown by a failed check: the failing call, its result
code, and the state in which it was thrown. -/
structure Exception where
  call : Call
  code : Nat
  state : State
deriving DecidableEq, Repr

/-- The host-side faults the header can run into without any device call
failing. -/
inductive HostFault where
  | length_error   -- `std::length_error` thrown by `host_pixels.resize`
  | null_string    -- `std::string` constructed from the null pointer of a failed `_getcwd`
deriving DecidableEq, Repr

/-- What ends an operation early: the exception of a failed check, or a
host-side fault, with the state in which it happened. -/
inductive Failure where
  | device (x : Exception)
  | host (fault : HostFault) (state : State)
deriving DecidableEq, Repr

/-- The state in which an operation was cut short. -/
def Failure.state : Failure → State
  | Failure.device x => x.state
  | Failure.host _ s => s

/-- Result code of the `k`-th call issued on the device; `0` is success. -/
abbrev Oracle := Nat → Nat

/-- The device on which every call succeeds. -/
def allSucceed : Oracle := fun _ => 0

/-- Consume the next fresh handle. -/
def Device.fresh (d : Device) : Device := { d with next := d.next + 1 }

/-- Record a call and the code it returned. -/
def Device.log (d : Device) (c : Call) (code : Nat) : Device :=
  { d with trace := d.trace ++ [(c, code)] }

/-- Modelled from the spec: the check macros of `Exception.h` (`CUDA_CHECK`,
`OPTIX_CHECK`, `OPTIX_CHECK_LOG`) are not part of the sources.  Every device
call's result code is checked; a non-success code is fatal and raises an
exception naming the failing call.  On success the call takes effect. -/
def checked (ok : Oracle) (c : Call) (effect : Device → Device) (s : State) :
    Except Failure State :=
  let code := ok s.dev.trace.length
  let d := s.dev.log c code
  if code = 0 then Except.ok { s with dev := effect d }
  else Except.error (Failure.device { call := c, code := code, state := { s with dev := d } })

/-- Modelled from the spec: the same check macros of `Exception.h`, around a
call that creates a resource and returns its fresh handle through an
out-parameter.  On a non-success code nothing is created. -/
def checkedNew (ok : Oracle) (c : Call) (effect : Nat → Device → Device) (s : State) :
    Except Failure (Nat × State) :=
  let code := ok s.dev.trace.length
  let d := s.dev.log c code
  if code = 0 then
    Except.ok (d.next, { s with dev := effect d.next d.fresh })
  else Except.error (Failure.device { call := c, code := code, state := { s with dev := d } })

/-- Modelled from the spec: `CUDA_SYNC_CHECK()` of `Exception.h` is not part of
the sources; it blocks until the submitted work completes (a full
synchronisation barrier) and is fatal on a non-success code. -/
def CUDA_SYNC_CHECK (ok : Oracle) (s : State) : Except Failure State :=
  checked ok Call.cudaDeviceSynchronize id s

/-- `std::string currentPath(_getcwd(NULL, 0))`: the path when `_getcwd`
succeeds.  Constructing a `std::string` from the null pointer of a failed
`_getcwd` is undefined; implementations fault or throw `std::logic_error`,
and the operation does not continue. -/
def currentPath (s : State) : Except Failure String :=
  match s.cwd with
  | some path => Except.ok path
  | none => Except.error (Failure.host HostFault.null_string s)

/-- `host_pixels.resize(n)` on the global vector. -/
def host_pixels_resize (n : Nat) (s : State) : Except Failure State :=
  match resize s.host_pixels n with
  | some v => Except.ok { s with host_pixels := v }
  | none => Except.error (Failure.host HostFault.length_error s)

/-! ## The three operations -/

/-- `void Init()`. -/
def Init (ok : Oracle) (s : State) : Except Failure State := do
  -- Initialize CUDA and create OptiX context
  let s ← checked ok (Call.cudaFree 0) (fun d => d.free 0) s
  let s ← checked ok Call.optixInit id s
  let (h, s) ← checkedNew ok (Call.optixDeviceContextCreate 4) (Device.create ObjectKind.context) s
  let s := { s with context := h }
  -- Create module
  let s := { s with pipeline_compile_options :=
    { s.pipeline_compile_options with
      usesMotionBlur := false
      traversableGraphFlags := OPTIX_TRAVERSABLE_GRAPH_FLAG_ALLOW_SINGLE_LEVEL_INSTANCING
      numPayloadValues := 2
      numAttributeValues := 2
      exceptionFlags := OPTIX_EXCEPTION_FLAG_NONE
      pipelineLaunchParamsVariableName := some "params" } }
  -- the PTX text read from `filename` is opaque: it reaches the device only
  -- through the result code of `optixModuleCreateFromPTX`
  let currentPath ← currentPath s
  let _filename := currentPath ++ "/../PluginSource/build/x64/Debug/draw_solid_color.ptx"
  let (h, s) ← checkedNew ok (Call.optixModuleCreateFromPTX s.context s.pipeline_compile_options)
    (Device.create ObjectKind.module) s
  let s := { s with module := h }
  -- Create program groups, including NULL miss and hitgroups
  let (h, s) ← checkedNew ok
    (Call.optixProgramGroupCreate s.context ProgramGroupKind.raygen s.module
      (some "__raygen__draw_solid_color"))
    (Device.create (ObjectKind.programGroup ProgramGroupKind.raygen)) s
  let s := { s with raygen_prog_group := h }
  let (h, s) ← checkedNew ok
    (Call.optixProgramGroupCreate s.context ProgramGroupKind.miss 0 none)
    (Device.create (ObjectKind.programGroup ProgramGroupKind.miss)) s
  let s := { s with miss_prog_group := h }
  -- Link pipeline
  let max_trace_depth := 0
  let program_groups := [s.raygen_prog_group]
  let (h, s) ← checkedNew ok (Call.optixPipelineCreate s.context max_trace_depth program_groups)
    (Device.create ObjectKind.pipeline) s
  let s := { s with pipeline := h }
  let s ← program_groups.foldlM
    (fun s prog_group => checked ok (Call.optixUtilAccumulateStackSizes prog_group) id s) s
  let s ← checked ok (Call.optixUtilComputeStackSizes max_trace_depth 0 0) id s
  let s ← checked ok (Call.optixPipelineSetStackSize s.pipeline 2) id s
  -- Set up shader binding table
  let raygen_record_size := RayGenSbtRecord.size
  let (raygen_record, s) ← checkedNew ok (Call.cudaMalloc raygen_record_size)
    (Device.malloc Role.raygenRecord raygen_record_size) s
  let rg_sbt := uninitObject RayGenSbtRecord
  let s ← checked ok (Call.optixSbtRecordPackHeader s.raygen_prog_group) id s
  let rg_sbt := writeAt rg_sbt 0 (packedHeader s.raygen_prog_group)
  let rg_sbt := writeAt rg_sbt (SbtRecord.dataOffset RayGenData)
    (floatBytes { digits := 462, scale := 3 } ++ floatBytes { digits := 725, scale := 3 }
      ++ floatBytes { digits := 0, scale := 0 })
  let s ← checked ok (Call.cudaMemcpyHostToDevice raygen_record raygen_record_size)
    (Device.upload raygen_record rg_sbt raygen_record_size) s
  let miss_record_size := MissSbtRecord.size
  let (miss_record, s) ← checkedNew ok (Call.cudaMalloc miss_record_size)
    (Device.malloc Role.missRecord miss_record_size) s
  let ms_sbt := uninitObject RayGenSbtRecord
  let s ← checked ok (Call.optixSbtRecordPackHeader s.miss_prog_group) id s
  let ms_sbt := writeAt ms_sbt 0 (packedHeader s.miss_prog_group)
  let s ← checked ok (Call.cudaMemcpyHostToDevice miss_record miss_record_size)
    (Device.upload miss_record ms_sbt miss_record_size) s
  pure { s with sbt :=
    { s.sbt with
      raygenRecord := raygen_record
      missRecordBase := miss_record
      missRecordStrideInBytes := MissSbtRecord.size
      missRecordCount := 1 } }

/-- What `Launch` returns: the address `host_pixels.data()`. -/
inductive HostPtr where
  | host_pixels_data
deriving DecidableEq, Repr

/-- The buffer a returned pointer designates. -/
def HostPtr.deref (_p : HostPtr) (s : State) : List uchar4 := s.host_pixels

/-- `uchar4* Launch(int _width, int _height)`. -/
def Launch (ok : Oracle) (_width _height : Int) (s : State) :
    Except Failure (HostPtr × State) := do
  let s := { s with width := _width }
  let s := { s with height := _height }
  -- Create cuda device resource.
  let s ← checked ok (Call.cudaFree s.device_pixels) (fun d => d.free s.device_pixels) s
  let bytes := mulSizeT (toSizeT (wrapInt32 (s.width * s.height))) c_uchar4.size
  let (p, s) ← checkedNew ok (Call.cudaMalloc bytes) (Device.malloc Role.framebuffer bytes) s
  let s := { s with device_pixels := p }
  let (stream, s) ← checkedNew ok Call.cudaStreamCreate Device.newStream s
  let params := writeAt (writeAt (uninitObject Params) 0 (pointerBytes s.device_pixels))
    (memberOffset c_pointer.size c_unsigned) (unsignedBytes (toUInt32 s.width))
  let (d_param, s) ← checkedNew ok (Call.cudaMalloc Params.size)
    (Device.malloc Role.launchParams Params.size) s
  let s ← checked ok (Call.cudaMemcpyHostToDevice d_param Params.size)
    (Device.upload d_param params Params.size) s
  let s ← checked ok
    (Call.optixLaunch s.pipeline stream d_param Params.size s.sbt
      (toUInt32 s.width) (toUInt32 s.height) 1) id s
  let s ← CUDA_SYNC_CHECK ok s
  let s ← checked ok (Call.cudaSetDevice 0) id s
  let s ← checked ok (Call.cudaStreamSynchronize 0) id s
  let s ← host_pixels_resize (toSizeT (wrapInt32 (s.width * s.height))) s
  let count := mulSizeT (toSizeT (wrapInt32 (s.width * s.height))) c_uchar4.size
  let src := s.device_pixels
  let s ← checked ok (Call.cudaMemcpyDeviceToHost src count) id s
  let s := { s with host_pixels := copyToHost src count 0 s.host_pixels }
  pure (HostPtr.host_pixels_data, s)

/-- `void Cleanup()`. -/
def Cleanup (ok : Oracle) (s : State) : Except Failure State := do
  let s ← checked ok (Call.cudaFree s.sbt.raygenRecord) (fun d => d.free s.sbt.raygenRecord) s
  let s ← checked ok (Call.cudaFree s.sbt.missRecordBase) (fun d => d.free s.sbt.missRecordBase) s
  let s ← checked ok (Call.optixPipelineDestroy s.pipeline) (Device.destroy s.pipeline) s
  let s ← checked ok (Call.optixProgramGroupDestroy s.miss_prog_group)
    (Device.destroy s.miss_prog_group) s
  let s ← checked ok (Call.optixProgramGroupDestroy s.raygen_prog_group)
    (Device.destroy s.raygen_prog_group) s
  let s ← checked ok (Call.optixModuleDestroy s.module) (Device.destroy s.module) s
  checked ok (Call.optixDeviceContextDestroy s.context) (Device.destroy s.context) s

/-- A run of `Launch` calls, one per requested resolution, in order. -/
def launches (ok : Oracle) : List (Int × Int) → State → Except Failure State
  | [], s => pure s
  | (w, h) :: rest, s => do
    let (_, s) ← Launch ok w h s
    launches ok rest s

/-- The state reached by a successful `Init` from program start. -/
def ready : State :=
  match Init allSucceed State.init with
  | Except.ok s => s
  | Except.error e => e.state

/-! ## Notions used in the statements -/

/-- Address, size and role of every live allocation, in allocation order. -/
def Device.footprint (d : Device) : List (Nat × Nat × Role) :=
  d.allocs.map (fun a => (a.addr, a.size, a.role))

/-- The size in bytes `Launch` requests for the framebuffer:
`width * height * sizeof(uchar4)`. -/
def framebufferBytes (w h : Int) : Nat := mulSizeT (toSizeT (wrapInt32 (w * h))) c_uchar4.size

/-- The state a `Launch` ends in when every device call succeeds: the state
it returns in, or the one in which `resize` cut it short. -/
def launched (w h : Int) (s : State) : State :=
  match Launch allSucceed w h s with
  | Except.ok r => r.2
  | Except.error e => e.state

/-- The live allocations with a given role. -/
def Device.withRole (d : Device) (r : Role) : List (Nat × Nat × Role) :=
  d.footprint.filter (fun e => decide (e.2.2 = r))

/-- The state invariant between `Init` and `Cleanup`, after `n` launches. -/
structure Ready (n : Nat) (s : State) : Prop where
  context : s.context = 1
  module : s.module = 2
  raygen_prog_group : s.raygen_prog_group = 3
  miss_prog_group : s.miss_prog_group = 4
  pipeline : s.pipeline = 5
  sbt : s.sbt = { raygenRecord := 6, missRecordBase := 7,
                  missRecordStrideInBytes := 48, missRecordCount := 1 }
  objects : s.dev.objects =
    [{ handle := 1, kind := ObjectKind.context }, { handle := 2, kind := ObjectKind.module },
     { handle := 3, kind := ObjectKind.programGroup ProgramGroupKind.raygen },
     { handle := 4, kind := ObjectKind.programGroup ProgramGroupKind.miss },
     { handle := 5, kind := ObjectKind.pipeline }]
  next_ge : 8 ≤ s.dev.next
  addr_lt : ∀ e ∈ s.dev.footprint, e.1 < s.dev.next
  pixels_null : n = 0 → s.device_pixels = 0
  pixels_ge : 0 < n → 8 ≤ s.device_pixels
  raygenRecord : s.dev.withRole Role.raygenRecord = [(6, 48, Role.raygenRecord)]
  missRecord : s.dev.withRole Role.missRecord = [(7, 48, Role.missRecord)]
  framebuffer_none : n = 0 → s.dev.withRole Role.framebuffer = []
  framebuffer_one : 0 < n →
    ∃ size, s.dev.withRole Role.framebuffer = [(s.device_pixels, size, Role.framebuffer)]
  pixels_role : ∀ e ∈ s.dev.footprint, e.1 = s.device_pixels → e.2.2 = Role.framebuffer
  launchParams : (s.dev.withRole Role.launchParams).length = n
  launchParams_size : ∀ e ∈ s.dev.footprint, e.2.2 = Role.launchParams → e.2.1 = Params.size
  streams : s.dev.streams.length = n
  shape : ∀ e ∈ s.dev.footprint, e = (6, 48, Role.raygenRecord) ∨ e = (7, 48, Role.missRecord)
    ∨ (8 ≤ e.1 ∧ (e.2.2 = Role.framebuffer ∨ e.2.2 = Role.launchParams))

/-- The state after a run of successful launches. -/
def launchedAll : List (Int × Int) → State → State
  | [], s => s
  | (w, h) :: rest, s => launchedAll rest (launched w h s)

/-- The state a `Cleanup` ends in when every device call succeeds. -/
def cleaned (s : State) : State :=
  match Cleanup allSucceed s with
  | Except.ok s' => s'
  | Except.error e => e.state

/-- The calls issued between state `s` and a later state `s'`, with the
result code each returned. -/
def issued (s s' : State) : List (Call × Nat) := s'.dev.trace.drop s.dev.trace.length

/-- The state an operation ends in, whether it returned or was cut short. -/
def finalState {α : Type} (st : α → State) : Except Failure α → State
  | Except.ok a => st a
  | Except.error e => e.state

/-! ## The fail-fast reading of an operation -/

/-- One step of an operation that can end it: a checked device call, or a
host statement that faults when `faults` is true. -/
inductive Step where
  | call (c : Call)
  | host (fault : HostFault) (faults : Bool)
deriving DecidableEq, Repr

/-- How an operation ended. -/
inductive Outcome where
  | returned
  | deviceError (c : Call) (code : Nat)
  | hostFault (fault : HostFault)
deriving DecidableEq, Repr

/-- The fail-fast run of a sequence of steps, the first call being call number
`k` on the device: calls are issued in order as long as they return success;
the first non-success code ends the run with that call's error; a faulting
host statement ends it with that fault.  Result: the calls issued with their
codes, and how the run ended. -/
def follow (ok : Oracle) : Nat → List Step → List (Call × Nat) × Outcome
  | _, [] => ([], Outcome.returned)
  | k, Step.call c :: rest =>
    if ok k = 0 then ((c, 0) :: (follow ok (k + 1) rest).1, (follow ok (k + 1) rest).2)
    else ([(c, ok k)], Outcome.deviceError c (ok k))
  | k, Step.host fault faults :: rest =>
    if faults then ([], Outcome.hostFault fault) else follow ok k rest

/-- The number of device calls in a script. -/
def callCount : List Step → Nat
  | [] => 0
  | Step.call _ :: rest => callCount rest + 1
  | Step.host _ _ :: rest => callCount rest

/-- Whether some host statement of a script faults. -/
def anyFault : List Step → Bool
  | [] => false
  | Step.call _ :: rest => anyFault rest
  | Step.host _ faults :: rest => faults || anyFault rest

/-- How a run of an operation ended. -/
def outcome {α : Type} : Except Failure α → Outcome
  | Except.ok _ => Outcome.returned
  | Except.error (Failure.device x) => Outcome.deviceError x.call x.code
  | Except.error (Failure.host fault _) => Outcome.hostFault fault

/-- A run `r` started with call log `t0` logs and ends exactly as the
fail-fast run of `script` does. -/
structure FollowsFrom {α : Type} (ok : Oracle) (t0 : List (Call × Nat)) (st : α → State)
    (script : List Step) (r : Except Failure α) : Prop where
  log : (finalState st r).dev.trace = t0 ++ (follow ok t0.length script).1
  ends : outcome r = (follow ok t0.length script).2

/-- A run `r` of an operation started in state `s` logs and ends exactly as
the fail-fast run of `script` does. -/
def Follows {α : Type} (ok : Oracle) (s : State) (st : α → State) (script : List Step)
    (r : Except Failure α) : Prop :=
  FollowsFrom ok s.dev.trace st script r

/-- The steps of `Init` in source order: sixteen device calls, and the
construction of `currentPath` from `_getcwd` before the module is created.
Handles are the fresh ones the successful creation calls return. -/
def Init_script (s : State) : List Step :=
  [Step.call (Call.cudaFree 0),
   Step.call Call.optixInit,
   Step.call (Call.optixDeviceContextCreate 4),
   Step.host HostFault.null_string s.cwd.isNone,
   Step.call (Call.optixModuleCreateFromPTX s.dev.next
     { usesMotionBlur := false
       traversableGraphFlags := OPTIX_TRAVERSABLE_GRAPH_FLAG_ALLOW_SINGLE_LEVEL_INSTANCING
       numPayloadValues := 2
       numAttributeValues := 2
       exceptionFlags := OPTIX_EXCEPTION_FLAG_NONE
       pipelineLaunchParamsVariableName := some "params" }),
   Step.call (Call.optixProgramGroupCreate s.dev.next ProgramGroupKind.raygen (s.dev.next + 1)
     (some "__raygen__draw_solid_color")),
   Step.call (Call.optixProgramGroupCreate s.dev.next ProgramGroupKind.miss 0 none),
   Step.call (Call.optixPipelineCreate s.dev.next 0 [s.dev.next + 2]),
   Step.call (Call.optixUtilAccumulateStackSizes (s.dev.next + 2)),
   Step.call (Call.optixUtilComputeStackSizes 0 0 0),
   Step.call (Call.optixPipelineSetStackSize (s.dev.next + 4) 2),
   Step.call (Call.cudaMalloc RayGenSbtRecord.size),
   Step.call (Call.optixSbtRecordPackHeader (s.dev.next + 2)),
   Step.call (Call.cudaMemcpyHostToDevice (s.dev.next + 5) RayGenSbtRecord.size),
   Step.call (Call.cudaMalloc MissSbtRecord.size),
   Step.call (Call.optixSbtRecordPackHeader (s.dev.next + 3)),
   Step.call (Call.cudaMemcpyHostToDevice (s.dev.next + 6) MissSbtRecord.size)]

/-- The steps of `Launch` in source order: ten device calls, and
`host_pixels.resize(width * height)` between the ninth and the tenth. -/
def Launch_script (w h : Int) (s : State) : List Step :=
  [Step.call (Call.cudaFree s.device_pixels),
   Step.call (Call.cudaMalloc (framebufferBytes w h)),
   Step.call Call.cudaStreamCreate,
   Step.call (Call.cudaMalloc Params.size),
   Step.call (Call.cudaMemcpyHostToDevice (s.dev.next + 2) Params.size),
   Step.call (Call.optixLaunch s.pipeline (s.dev.next + 1) (s.dev.next + 2) Params.size s.sbt
     (toUInt32 w) (toUInt32 h) 1),
   Step.call Call.cudaDeviceSynchronize,
   Step.call (Call.cudaSetDevice 0),
   Step.call (Call.cudaStreamSynchronize 0),
   Step.host HostFault.length_error (decide (¬ resizable w h)),
   Step.call (Call.cudaMemcpyDeviceToHost s.dev.next (framebufferBytes w h))]

/-- The steps of `Cleanup` in source order: seven device calls. -/
def Cleanup_script (s : State) : List Step :=
  [Step.call (Call.cudaFree s.sbt.raygenRecord),
   Step.call (Call.cudaFree s.sbt.missRecordBase),
   Step.call (Call.optixPipelineDestroy s.pipeline),
   Step.call (Call.optixProgramGroupDestroy s.miss_prog_group),
   Step.call (Call.optixProgramGroupDestroy s.raygen_prog_group),
   Step.call (Call.optixModuleDestroy s.module),
   Step.call (Call.optixDeviceContextDestroy s.context)]

/-- What the fail-fast discipline says of one run `r` of an operation started
in state `s`: the calls it issued are appended to the log; it raises a
device-call exception exactly when one of them returned a non-success code;
no call is issued after a failing one; the exception names the last call
issued; and a run that returns, or that ends in a host fault, has seen only
success codes. -/
structure FailFast {α : Type} (s : State) (st : α → State) (r : Except Failure α) :
    Prop where
  log_extends : (finalState st r).dev.trace = s.dev.trace ++ issued s (finalState st r)
  device_failure_iff :
    (∃ x, r = Except.error (Failure.device x)) ↔ ∃ e ∈ issued s (finalState st r), e.2 ≠ 0
  stops : ∀ pre e post, issued s (finalState st r) = pre ++ e :: post → e.2 ≠ 0 → post = []
  names_call : ∀ x, r = Except.error (Failure.device x) →
    (issued s x.state).getLast? = some (x.call, x.code)

/-! ## Lifecycle -/

/-- The three stages of the lifecycle the header is meant to go through. -/
inductive Lifecycle where
  | Uninitialized
  | Ready
  | Terminated
deriving DecidableEq, Repr

/-- The program states of each stage on a given device: program start; after
`Init` and any run of launches; after a `Cleanup` of such a state. -/
def Lifecycle.states (ok : Oracle) : Lifecycle → State → Prop
  | Lifecycle.Uninitialized, s => s = State.init
  | Lifecycle.Ready, s => ∃ dims, (Init ok State.init >>= launches ok dims) = Except.ok s
  | Lifecycle.Terminated, s =>
    ∃ dims s₁, (Init ok State.init >>= launches ok dims) = Except.ok s₁ ∧
      Cleanup ok s₁ = Except.ok s

/-! # Theorems -/

/-! ## Basic facts about checked calls -/

theorem checked_allSucceed (c : Call) (e : Device → Device) (s : State) :
    checked allSucceed c e s = Except.ok { s with dev := e (s.dev.log c 0) } := rfl

theorem checkedNew_allSucceed (c : Call) (e : Nat → Device → Device) (s : State) :
    checkedNew allSucceed c e s
      = Except.ok (s.dev.next, { s with dev := e s.dev.next (s.dev.log c 0).fresh }) := rfl

theorem oracle_eq_allSucceed {ok : Oracle} (hok : ∀ k, ok k = 0) : ok = allSucceed :=
  funext hok

theorem checked_eq_ok_iff (ok : Oracle) (c : Call) (e : Device → Device) (s s' : State) :
    checked ok c e s = Except.ok s'
      ↔ ok s.dev.trace.length = 0 ∧ s' = { s with dev := e (s.dev.log c 0) } := by
  unfold checked
  by_cases h : ok s.dev.trace.length = 0
  · simp [h, eq_comm]
  · simp [h]

theorem checked_bind_eq_ok_iff {β : Type} (ok : Oracle) (c : Call) (e : Device → Device)
    (s : State) (f : State → Except Failure β) (b : β) :
    (checked ok c e s >>= f) = Except.ok b
      ↔ ok s.dev.trace.length = 0 ∧ f { s with dev := e (s.dev.log c 0) } = Except.ok b := by
  unfold checked
  by_cases h : ok s.dev.trace.length = 0
  · simp [h, bind, Except.bind]
  · simp [h, bind, Except.bind]

theorem checkedNew_bind_eq_ok_iff {β : Type} (ok : Oracle) (c : Call)
    (e : Nat → Device → Device) (s : State) (f : Nat × State → Except Failure β) (b : β) :
    (checkedNew ok c e s >>= f) = Except.ok b
      ↔ ok s.dev.trace.length = 0 ∧
        f (s.dev.next, { s with dev := e s.dev.next (s.dev.log c 0).fresh }) = Except.ok b := by
  unfold checkedNew
  by_cases h : ok s.dev.trace.length = 0
  · simp [h, bind, Except.bind, Device.log]
  · simp [h, bind, Except.bind]

theorem pure_eq_ok_iff {β : Type} (a b : β) :
    (pure a : Except Failure β) = Except.ok b ↔ a = b := by
  simp [pure, Except.pure]

theorem currentPath_bind_eq_ok_iff {β : Type} (s : State) (f : String → Except Failure β)
    (b : β) :
    (currentPath s >>= f) = Except.ok b ↔ ∃ path, s.cwd = some path ∧ f path = Except.ok b := by
  unfold currentPath
  cases s.cwd with
  | none => simp [bind, Except.bind]
  | some path => simp [bind, Except.bind]

theorem host_pixels_resize_of_resizable {n : Nat} (h : n ≤ vector_max_size) (s : State) :
    host_pixels_resize n s = Except.ok
      { s with host_pixels := s.host_pixels.take n
                ++ List.replicate (n - s.host_pixels.length) uchar4.zero } := by
  simp [host_pixels_resize, resize, Nat.not_lt.mpr h]

theorem host_pixels_resize_of_not_resizable {n : Nat} (h : vector_max_size < n) (s : State) :
    host_pixels_resize n s = Except.error (Failure.host HostFault.length_error s) := by
  simp [host_pixels_resize, resize, h]

theorem host_pixels_resize_bind_eq_ok_iff {β : Type} (n : Nat) (s : State)
    (f : State → Except Failure β) (b : β) :
    (host_pixels_resize n s >>= f) = Except.ok b
      ↔ n ≤ vector_max_size ∧
        f { s with host_pixels := s.host_pixels.take n
              ++ List.replicate (n - s.host_pixels.length) uchar4.zero } = Except.ok b := by
  by_cases h : n ≤ vector_max_size
  · rw [host_pixels_resize_of_resizable h s]
    simp [h, bind, Except.bind]
  · rw [host_pixels_resize_of_not_resizable (Nat.lt_of_not_le h) s]
    simp [h, bind, Except.bind]

/-- A non-negative `int` is a size `resize` accepts, a negative one is not. -/
theorem resizable_iff (w h : Int) : resizable w h ↔ 0 ≤ wrapInt32 (w * h) := by
  unfold resizable toSizeT wrapInt32 vector_max_size
  omega

/-! ## Projections of the device operations -/

@[simp] theorem Device.log_trace (d : Device) (c : Call) (k : Nat) :
    (d.log c k).trace = d.trace ++ [(c, k)] := rfl

@[simp] theorem Device.log_next (d : Device) (c : Call) (k : Nat) : (d.log c k).next = d.next := rfl

@[simp] theorem Device.log_allocs (d : Device) (c : Call) (k : Nat) :
    (d.log c k).allocs = d.allocs := rfl

@[simp] theorem Device.log_streams (d : Device) (c : Call) (k : Nat) :
    (d.log c k).streams = d.streams := rfl

@[simp] theorem Device.log_objects (d : Device) (c : Call) (k : Nat) :
    (d.log c k).objects = d.objects := rfl

@[simp] theorem Device.fresh_trace (d : Device) : d.fresh.trace = d.trace := rfl

@[simp] theorem Device.fresh_next (d : Device) : d.fresh.next = d.next + 1 := rfl

@[simp] theorem Device.fresh_allocs (d : Device) : d.fresh.allocs = d.allocs := rfl

@[simp] theorem Device.fresh_streams (d : Device) : d.fresh.streams = d.streams := rfl

@[simp] theorem Device.fresh_objects (d : Device) : d.fresh.objects = d.objects := rfl

@[simp] theorem Device.free_trace (d : Device) (p : Nat) : (d.free p).trace = d.trace := rfl

@[simp] theorem Device.free_next (d : Device) (p : Nat) : (d.free p).next = d.next := rfl

@[simp] theorem Device.free_streams (d : Device) (p : Nat) : (d.free p).streams = d.streams := rfl

@[simp] theorem Device.free_objects (d : Device) (p : Nat) : (d.free p).objects = d.objects := rfl

@[simp] theorem Device.malloc_trace (r : Role) (n a : Nat) (d : Device) :
    (d.malloc r n a).trace = d.trace := rfl

@[simp] theorem Device.malloc_next (r : Role) (n a : Nat) (d : Device) :
    (d.malloc r n a).next = d.next := rfl

@[simp] theorem Device.malloc_allocs (r : Role) (n a : Nat) (d : Device) :
    (d.malloc r n a).allocs = d.allocs ++ [{ addr := a, size := n, role := r, bytes := [] }] := rfl

@[simp] theorem Device.malloc_streams (r : Role) (n a : Nat) (d : Device) :
    (d.malloc r n a).streams = d.streams := rfl

@[simp] theorem Device.malloc_objects (r : Role) (n a : Nat) (d : Device) :
    (d.malloc r n a).objects = d.objects := rfl

@[simp] theorem Device.upload_trace (dst : Nat) (src : List Byte) (n : Nat) (d : Device) :
    (d.upload dst src n).trace = d.trace := rfl

@[simp] theorem Device.upload_next (dst : Nat) (src : List Byte) (n : Nat) (d : Device) :
    (d.upload dst src n).next = d.next := rfl

@[simp] theorem Device.upload_streams (dst : Nat) (src : List Byte) (n : Nat) (d : Device) :
    (d.upload dst src n).streams = d.streams := rfl

@[simp] theorem Device.upload_objects (dst : Nat) (src : List Byte) (n : Nat) (d : Device) :
    (d.upload dst src n).objects = d.objects := rfl

@[simp] theorem Device.newStream_trace (h : Nat) (d : Device) :
    (d.newStream h).trace = d.trace := rfl

@[simp] theorem Device.newStream_next (h : Nat) (d : Device) :
    (d.newStream h).next = d.next := rfl

@[simp] theorem Device.newStream_allocs (h : Nat) (d : Device) :
    (d.newStream h).allocs = d.allocs := rfl

@[simp] theorem Device.newStream_streams (h : Nat) (d : Device) :
    (d.newStream h).streams = d.streams ++ [h] := rfl

@[simp] theorem Device.newStream_objects (h : Nat) (d : Device) :
    (d.newStream h).objects = d.objects := rfl

@[simp] theorem Device.create_trace (k : ObjectKind) (h : Nat) (d : Device) :
    (d.create k h).trace = d.trace := rfl

@[simp] theorem Device.create_next (k : ObjectKind) (h : Nat) (d : Device) :
    (d.create k h).next = d.next := rfl

@[simp] theorem Device.create_allocs (k : ObjectKind) (h : Nat) (d : Device) :
    (d.create k h).allocs = d.allocs := rfl

@[simp] theorem Device.create_streams (k : ObjectKind) (h : Nat) (d : Device) :
    (d.create k h).streams = d.streams := rfl

@[simp] theorem Device.create_objects (k : ObjectKind) (h : Nat) (d : Device) :
    (d.create k h).objects = d.objects ++ [{ handle := h, kind := k }] := rfl

@[simp] theorem Device.destroy_trace (h : Nat) (d : Device) :
    (d.destroy h).trace = d.trace := rfl

@[simp] theorem Device.destroy_next (h : Nat) (d : Device) :
    (d.destroy h).next = d.next := rfl

@[simp] theorem Device.destroy_allocs (h : Nat) (d : Device) :
    (d.destroy h).allocs = d.allocs := rfl

@[simp] theorem Device.destroy_streams (h : Nat) (d : Device) :
    (d.destroy h).streams = d.streams := rfl

@[simp] theorem Device.destroy_objects (h : Nat) (d : Device) :
    (d.destroy h).objects = d.objects.filter (fun o => decide (o.handle ≠ h)) := rfl

/-! ## Success paths -/

theorem Init_allSucceed : Init allSucceed State.init = Except.ok ready := rfl

theorem Init_ok_allSucceed (ok : Oracle) (s s' : State) (h : Init ok s = Except.ok s') :
    Init allSucceed s = Except.ok s' := by
  simp only [Init, List.foldlM_cons, List.foldlM_nil, bind_assoc, pure_bind,
    checked_bind_eq_ok_iff, checkedNew_bind_eq_ok_iff, currentPath_bind_eq_ok_iff,
    pure_eq_ok_iff] at h ⊢
  obtain ⟨-, -, -, path, hpath, -, -, -, -, -, -, -, -, -, -, -, -, -, rfl⟩ := h
  simp only [allSucceed, true_and]
  exact ⟨path, hpath, trivial⟩

theorem Init_eq_ok (ok : Oracle) (s : State) (h : Init ok State.init = Except.ok s) :
    s = ready :=
  Except.ok.inj ((Init_ok_allSucceed ok State.init s h).symm.trans Init_allSucceed)

theorem Cleanup_eq_ok (ok : Oracle) (s s' : State) (h : Cleanup ok s = Except.ok s') :
    Cleanup allSucceed s = Except.ok s' := by
  simp only [Cleanup, checked_bind_eq_ok_iff, checked_eq_ok_iff] at h ⊢
  obtain ⟨-, -, -, -, -, -, -, rfl⟩ := h
  simp [allSucceed]

/-! ## Every call is checked: the operations follow their scripts -/

theorem FollowsFrom.pure {α : Type} (ok : Oracle) (st : α → State) (a : α) :
    FollowsFrom ok (st a).dev.trace st [] (Pure.pure a) :=
  { log := by simp [finalState, follow, Pure.pure, Except.pure]
    ends := rfl }

theorem FollowsFrom.done {α : Type} (ok : Oracle) (st : α → State) (a : α)
    {t0 : List (Call × Nat)} (ht0 : (st a).dev.trace = t0) :
    FollowsFrom ok t0 st [] (Pure.pure a) := by
  subst ht0
  exact FollowsFrom.pure ok st a

theorem FollowsFrom.call {α : Type} (ok : Oracle) (c : Call) (e : Device → Device) (s : State)
    (st : α → State) (rest : List Step) (f : State → Except Failure α)
    {t0 : List (Call × Nat)} (ht0 : s.dev.trace = t0) (he : ∀ d, (e d).trace = d.trace)
    (hf : FollowsFrom ok ({ s with dev := e (s.dev.log c 0) } : State).dev.trace st rest
      (f { s with dev := e (s.dev.log c 0) })) :
    FollowsFrom ok t0 st (Step.call c :: rest) (checked ok c e s >>= f) := by
  subst ht0
  by_cases h : ok s.dev.trace.length = 0
  · have hc : checked ok c e s = Except.ok { s with dev := e (s.dev.log c 0) } := by
      simp [checked, h]
    have ht : ({ s with dev := e (s.dev.log c 0) } : State).dev.trace = s.dev.trace ++ [(c, 0)] := by
      simp [he]
    rw [hc]
    rw [ht] at hf
    have hlen : (s.dev.trace ++ [(c, 0)]).length = s.dev.trace.length + 1 := by simp
    refine { log := ?_, ends := ?_ }
    · have := hf.log
      rw [hlen] at this
      simp only [follow, h, if_true]
      rw [show (Except.ok ({ s with dev := e (s.dev.log c 0) } : State) >>= f)
        = f { s with dev := e (s.dev.log c 0) } from rfl, this]
      simp
    · have := hf.ends
      rw [hlen] at this
      simp only [follow, h, if_true]
      exact this
  · have hc : checked ok c e s = Except.error (Failure.device
        { call := c, code := ok s.dev.trace.length,
          state := { s with dev := s.dev.log c (ok s.dev.trace.length) } }) := by
      simp [checked, h]
    rw [hc]
    refine { log := ?_, ends := ?_ }
    · simp [follow, h, finalState, bind, Except.bind, Failure.state]
    · simp [follow, h, outcome, bind, Except.bind]

theorem FollowsFrom.callNew {α : Type} (ok : Oracle) (c : Call) (e : Nat → Device → Device)
    (s : State) (st : α → State) (rest : List Step) (f : Nat × State → Except Failure α)
    {t0 : List (Call × Nat)} (ht0 : s.dev.trace = t0) (he : ∀ n d, (e n d).trace = d.trace)
    (hf : FollowsFrom ok
      ({ s with dev := e s.dev.next (s.dev.log c 0).fresh } : State).dev.trace st rest
      (f (s.dev.next, { s with dev := e s.dev.next (s.dev.log c 0).fresh }))) :
    FollowsFrom ok t0 st (Step.call c :: rest) (checkedNew ok c e s >>= f) := by
  subst ht0
  by_cases h : ok s.dev.trace.length = 0
  · have hc : checkedNew ok c e s
        = Except.ok (s.dev.next, { s with dev := e s.dev.next (s.dev.log c 0).fresh }) := by
      simp [checkedNew, h, Device.log]
    have ht : ({ s with dev := e s.dev.next (s.dev.log c 0).fresh } : State).dev.trace
        = s.dev.trace ++ [(c, 0)] := by
      simp [he]
    rw [hc]
    rw [ht] at hf
    have hlen : (s.dev.trace ++ [(c, 0)]).length = s.dev.trace.length + 1 := by simp
    refine { log := ?_, ends := ?_ }
    · have := hf.log
      rw [hlen] at this
      simp only [follow, h, if_true]
      rw [show (Except.ok (s.dev.next,
          ({ s with dev := e s.dev.next (s.dev.log c 0).fresh } : State)) >>= f)
        = f (s.dev.next, { s with dev := e s.dev.next (s.dev.log c 0).fresh }) from rfl, this]
      simp
    · have := hf.ends
      rw [hlen] at this
      simp only [follow, h, if_true]
      exact this
  · have hc : checkedNew ok c e s = Except.error (Failure.device
        { call := c, code := ok s.dev.trace.length,
          state := { s with dev := s.dev.log c (ok s.dev.trace.length) } }) := by
      simp [checkedNew, h]
    rw [hc]
    refine { log := ?_, ends := ?_ }
    · simp [follow, h, finalState, bind, Except.bind, Failure.state]
    · simp [follow, h, outcome, bind, Except.bind]

theorem FollowsFrom.last (ok : Oracle) (c : Call) (e : Device → Device) (s : State)
    {t0 : List (Call × Nat)} (ht0 : s.dev.trace = t0) (he : ∀ d, (e d).trace = d.trace) :
    FollowsFrom ok t0 id [Step.call c] (checked ok c e s) := by
  have h := FollowsFrom.call ok c e s id [] Pure.pure ht0 he (FollowsFrom.pure ok id _)
  rwa [bind_pure] at h

theorem FollowsFrom.currentPath {α : Type} (ok : Oracle) (s : State) (st : α → State)
    (rest : List Step) (f : String → Except Failure α)
    {t0 : List (Call × Nat)} {b : Bool} (ht0 : s.dev.trace = t0) (hb : s.cwd.isNone = b)
    (hf : ∀ path, FollowsFrom ok s.dev.trace st rest (f path)) :
    FollowsFrom ok t0 st (Step.host HostFault.null_string b :: rest)
      (Optix7.currentPath s >>= f) := by
  subst ht0
  subst hb
  unfold Optix7.currentPath
  cases hcwd : s.cwd with
  | none =>
    refine { log := ?_, ends := ?_ }
    · simp [follow, finalState, bind, Except.bind, Failure.state]
    · simp [follow, outcome, bind, Except.bind]
  | some path =>
    have := hf path
    refine { log := ?_, ends := ?_ }
    · simpa [follow, bind, Except.bind] using this.log
    · simpa [follow, bind, Except.bind] using this.ends

theorem FollowsFrom.resize {α : Type} (ok : Oracle) (n : Nat) (s : State) (st : α → State)
    (rest : List Step) (f : State → Except Failure α)
    {t0 : List (Call × Nat)} {b : Bool} (ht0 : s.dev.trace = t0)
    (hb : decide (¬ n ≤ vector_max_size) = b)
    (hf : ∀ v, FollowsFrom ok s.dev.trace st rest (f { s with host_pixels := v })) :
    FollowsFrom ok t0 st (Step.host HostFault.length_error b :: rest)
      (host_pixels_resize n s >>= f) := by
  subst ht0
  subst hb
  by_cases h : n ≤ vector_max_size
  · rw [host_pixels_resize_of_resizable h s]
    have := hf (s.host_pixels.take n ++ List.replicate (n - s.host_pixels.length) uchar4.zero)
    refine { log := ?_, ends := ?_ }
    · simpa [follow, h, bind, Except.bind] using this.log
    · simpa [follow, h, bind, Except.bind] using this.ends
  · rw [host_pixels_resize_of_not_resizable (Nat.lt_of_not_le h) s]
    refine { log := ?_, ends := ?_ }
    · simp [follow, h, finalState, bind, Except.bind, Failure.state]
    · simp [follow, h, outcome, bind, Except.bind]

theorem Cleanup_follows (ok : Oracle) (s : State) :
    Follows ok s id (Cleanup_script s) (Cleanup ok s) := by
  unfold Follows Cleanup Cleanup_script
  refine FollowsFrom.call _ _ _ _ _ _ _ (by rfl) (fun _ => rfl) ?_
  refine FollowsFrom.call _ _ _ _ _ _ _ (by rfl) (fun _ => rfl) ?_
  refine FollowsFrom.call _ _ _ _ _ _ _ (by rfl) (fun _ => rfl) ?_
  refine FollowsFrom.call _ _ _ _ _ _ _ (by rfl) (fun _ => rfl) ?_
  refine FollowsFrom.call _ _ _ _ _ _ _ (by rfl) (fun _ => rfl) ?_
  refine FollowsFrom.call _ _ _ _ _ _ _ (by rfl) (fun _ => rfl) ?_
  exact FollowsFrom.last _ _ _ _ (by rfl) (fun _ => rfl)

theorem Launch_follows (ok : Oracle) (w h : Int) (s : State) :
    Follows ok s Prod.snd (Launch_script w h s) (Launch ok w h s) := by
  unfold Follows Launch Launch_script CUDA_SYNC_CHECK
  refine FollowsFrom.call _ _ _ _ _ _ _ (by rfl) (fun _ => rfl) ?_
  refine FollowsFrom.callNew _ _ _ _ _ _ _ (by rfl) (fun _ _ => rfl) ?_
  refine FollowsFrom.callNew _ _ _ _ _ _ _ (by rfl) (fun _ _ => rfl) ?_
  refine FollowsFrom.callNew _ _ _ _ _ _ _ (by rfl) (fun _ _ => rfl) ?_
  refine FollowsFrom.call _ _ _ _ _ _ _ (by rfl) (fun _ => rfl) ?_
  refine FollowsFrom.call _ _ _ _ _ _ _ (by rfl) (fun _ => rfl) ?_
  refine FollowsFrom.call _ _ _ _ _ _ _ (by rfl) (fun _ => rfl) ?_
  refine FollowsFrom.call _ _ _ _ _ _ _ (by rfl) (fun _ => rfl) ?_
  refine FollowsFrom.call _ _ _ _ _ _ _ (by rfl) (fun _ => rfl) ?_
  refine FollowsFrom.resize _ _ _ _ _ _ (by rfl) (by rfl) (fun v => ?_)
  refine FollowsFrom.call _ _ _ _ _ _ _ (by rfl) (fun _ => rfl) ?_
  exact FollowsFrom.done _ Prod.snd _ (by rfl)

theorem Init_follows (ok : Oracle) (s : State) :
    Follows ok s id (Init_script s) (Init ok s) := by
  unfold Follows Init Init_script
  simp only [List.foldlM_cons, List.foldlM_nil, bind_assoc, pure_bind]
  refine FollowsFrom.call _ _ _ _ _ _ _ (by rfl) (fun _ => rfl) ?_
  refine FollowsFrom.call _ _ _ _ _ _ _ (by rfl) (fun _ => rfl) ?_
  refine FollowsFrom.callNew _ _ _ _ _ _ _ (by rfl) (fun _ _ => rfl) ?_
  refine FollowsFrom.currentPath _ _ _ _ _ (by rfl) (by rfl) (fun path => ?_)
  refine FollowsFrom.callNew _ _ _ _ _ _ _ (by rfl) (fun _ _ => rfl) ?_
  refine FollowsFrom.callNew _ _ _ _ _ _ _ (by rfl) (fun _ _ => rfl) ?_
  refine FollowsFrom.callNew _ _ _ _ _ _ _ (by rfl) (fun _ _ => rfl) ?_
  refine FollowsFrom.callNew _ _ _ _ _ _ _ (by rfl) (fun _ _ => rfl) ?_
  refine FollowsFrom.call _ _ _ _ _ _ _ (by rfl) (fun _ => rfl) ?_
  refine FollowsFrom.call _ _ _ _ _ _ _ (by rfl) (fun _ => rfl) ?_
  refine FollowsFrom.call _ _ _ _ _ _ _ (by rfl) (fun _ => rfl) ?_
  refine FollowsFrom.callNew _ _ _ _ _ _ _ (by rfl) (fun _ _ => rfl) ?_
  refine FollowsFrom.call _ _ _ _ _ _ _ (by rfl) (fun _ => rfl) ?_
  refine FollowsFrom.call _ _ _ _ _ _ _ (by rfl) (fun _ => rfl) ?_
  refine FollowsFrom.callNew _ _ _ _ _ _ _ (by rfl) (fun _ _ => rfl) ?_
  refine FollowsFrom.call _ _ _ _ _ _ _ (by rfl) (fun _ => rfl) ?_
  refine FollowsFrom.call _ _ _ _ _ _ _ (by rfl) (fun _ => rfl) ?_
  exact FollowsFrom.done _ id _ (by rfl)

theorem issued_of_trace_eq {s s' : State} {l : List (Call × Nat)}
    (h : s'.dev.trace = s.dev.trace ++ l) : issued s s' = l := by
  unfold issued
  rw [h, List.drop_left]

/-! ## What following a script implies -/

theorem follow_deviceError (ok : Oracle) (script : List Step) (k : Nat) (c : Call) (code : Nat)
    (h : (follow ok k script).2 = Outcome.deviceError c code) :
    ∃ pre, (follow ok k script).1 = pre ++ [(c, code)] ∧ (∀ e ∈ pre, e.2 = 0) ∧ code ≠ 0 := by
  induction script generalizing k with
  | nil => simp [follow] at h
  | cons step rest ih =>
    cases step with
    | call c' =>
      by_cases hk : ok k = 0
      · simp only [follow, hk, if_true] at h ⊢
        obtain ⟨pre, hpre, hall, hcode⟩ := ih (k + 1) h
        refine ⟨(c', 0) :: pre, by rw [hpre]; rfl, ?_, hcode⟩
        intro e he
        rcases List.mem_cons.mp he with h1 | h1
        · rw [h1]
        · exact hall e h1
      · simp only [follow, hk, if_false, Outcome.deviceError.injEq] at h ⊢
        obtain ⟨rfl, rfl⟩ := h
        exact ⟨[], rfl, by simp, hk⟩
    | host fault faults =>
      cases faults with
      | true => simp [follow] at h
      | false =>
        simp only [follow, Bool.false_eq_true, if_false] at h ⊢
        exact ih k h

theorem follow_clean (ok : Oracle) (script : List Step) (k : Nat)
    (h : ∀ c code, (follow ok k script).2 ≠ Outcome.deviceError c code) :
    ∀ e ∈ (follow ok k script).1, e.2 = 0 := by
  induction script generalizing k with
  | nil => simp [follow]
  | cons step rest ih =>
    cases step with
    | call c' =>
      by_cases hk : ok k = 0
      · simp only [follow, hk, if_true] at h ⊢
        intro e he
        rcases List.mem_cons.mp he with h1 | h1
        · rw [h1]
        · exact ih (k + 1) h e h1
      · simp only [follow, hk, if_false] at h
        exact absurd rfl (h c' (ok k))
    | host fault faults =>
      cases faults with
      | true => simp [follow]
      | false =>
        simp only [follow, Bool.false_eq_true, if_false] at h ⊢
        exact ih k h

theorem follow_returned_iff (ok : Oracle) (script : List Step) (k : Nat) :
    (follow ok k script).2 = Outcome.returned
      ↔ anyFault script = false ∧ ∀ i, i < callCount script → ok (k + i) = 0 := by
  induction script generalizing k with
  | nil => simp [follow, anyFault, callCount]
  | cons step rest ih =>
    cases step with
    | call c' =>
      by_cases hk : ok k = 0
      · simp only [follow, hk, if_true, anyFault, callCount]
        rw [ih (k + 1)]
        constructor
        · rintro ⟨h1, h2⟩
          refine ⟨h1, ?_⟩
          intro i hi
          cases i with
          | zero => exact hk
          | succ j =>
            have := h2 j (by omega)
            rwa [show k + 1 + j = k + (j + 1) by omega] at this
        · rintro ⟨h1, h2⟩
          refine ⟨h1, ?_⟩
          intro i hi
          have := h2 (i + 1) (by omega)
          rwa [show k + (i + 1) = k + 1 + i by omega] at this
      · simp only [follow, hk, if_false, anyFault, callCount]
        constructor
        · intro h; cases h
        · rintro ⟨-, h2⟩
          exact absurd (h2 0 (by omega)) hk
    | host fault faults =>
      cases faults with
      | true => simp [follow, anyFault]
      | false =>
        simp only [follow, Bool.false_eq_true, if_false, anyFault, callCount, Bool.false_or]
        exact ih k

theorem FollowsFrom.failFast {α : Type} {ok : Oracle} {s : State} {st : α → State}
    {script : List Step} {r : Except Failure α} (h : FollowsFrom ok s.dev.trace st script r) :
    FailFast s st r := by
  have hi : issued s (finalState st r) = (follow ok s.dev.trace.length script).1 :=
    issued_of_trace_eq h.log
  cases r with
  | ok a =>
    have hclean := follow_clean ok script s.dev.trace.length
      (by intro c code hc; have := h.ends; rw [hc] at this; cases this)
    refine { log_extends := ?_, device_failure_iff := ?_, stops := ?_, names_call := ?_ }
    · rw [hi]; exact h.log
    · rw [hi]
      constructor
      · rintro ⟨x, hx⟩; cases hx
      · rintro ⟨e, he, hne⟩; exact absurd (hclean e he) hne
    · intro pre e post hsplit hne
      rw [hi] at hsplit
      exact absurd (hclean e (by rw [hsplit]; simp)) hne
    · intro x hx; cases hx
  | error f =>
    cases f with
    | device x =>
      obtain ⟨pre, hpre, hall, hcode⟩ :=
        follow_deviceError ok script s.dev.trace.length x.call x.code h.ends.symm
      have hi' : issued s x.state = pre ++ [(x.call, x.code)] := by
        have : issued s (finalState st (Except.error (Failure.device x))) = _ := hi
        rw [hpre] at this
        exact this
      refine { log_extends := ?_, device_failure_iff := ?_, stops := ?_, names_call := ?_ }
      · rw [hi]; exact h.log
      · constructor
        · intro _
          exact ⟨(x.call, x.code), by
            show (x.call, x.code) ∈ issued s x.state
            rw [hi']; simp, hcode⟩
        · intro _; exact ⟨x, rfl⟩
      · intro pre' e post hsplit hne
        have hsplit' : issued s x.state = pre' ++ e :: post := hsplit
        rw [hi'] at hsplit'
        rcases List.eq_nil_or_concat post with hnil | ⟨post', l, hl⟩
        · exact hnil
        · exfalso
          rw [hl, List.concat_eq_append, ← List.cons_append, ← List.append_assoc] at hsplit'
          have hpre' : pre = pre' ++ e :: post' := (List.append_inj' hsplit' rfl).1
          exact hne (hall e (by rw [hpre']; simp))
      · intro y hy
        cases hy
        rw [hi']
        simp
    | host fault s' =>
      have hclean := follow_clean ok script s.dev.trace.length
        (by intro c code hc; have := h.ends; rw [hc] at this; cases this)
      refine { log_extends := ?_, device_failure_iff := ?_, stops := ?_, names_call := ?_ }
      · rw [hi]; exact h.log
      · rw [hi]
        constructor
        · rintro ⟨x, hx⟩; cases hx
        · rintro ⟨e, he, hne⟩; exact absurd (hclean e he) hne
      · intro pre e post hsplit hne
        rw [hi] at hsplit
        exact absurd (hclean e (by rw [hsplit]; simp)) hne
      · intro x hx; cases hx

theorem FollowsFrom.returns_iff {α : Type} {ok : Oracle} {t0 : List (Call × Nat)}
    {st : α → State} {script : List Step} {r : Except Failure α}
    (h : FollowsFrom ok t0 st script r) :
    (∃ a, r = Except.ok a) ↔ (follow ok t0.length script).2 = Outcome.returned := by
  rw [← h.ends]
  cases r with
  | ok a => simp [outcome]
  | error f => cases f <;> simp [outcome]

/-! ## Live allocations -/

@[simp] theorem Device.footprint_log (d : Device) (c : Call) (k : Nat) :
    (d.log c k).footprint = d.footprint := rfl

@[simp] theorem Device.footprint_fresh (d : Device) : d.fresh.footprint = d.footprint := rfl

@[simp] theorem Device.footprint_newStream (h : Nat) (d : Device) :
    (d.newStream h).footprint = d.footprint := rfl

@[simp] theorem Device.footprint_create (k : ObjectKind) (h : Nat) (d : Device) :
    (d.create k h).footprint = d.footprint := rfl

@[simp] theorem Device.footprint_destroy (h : Nat) (d : Device) :
    (d.destroy h).footprint = d.footprint := rfl

theorem Device.footprint_free (d : Device) (p : Nat) :
    (d.free p).footprint
      = if p = 0 then d.footprint else d.footprint.filter (fun e => decide (e.1 ≠ p)) := by
  unfold Device.free Device.footprint
  by_cases hp : p = 0
  · simp [hp]
  · simp only [hp, if_false, List.filter_map]
    rfl

@[simp] theorem Device.free_log (d : Device) (c : Call) (k : Nat) (p : Nat) :
    (d.log c k).free p = (d.free p).log c k := rfl

@[simp] theorem Device.footprint_malloc (r : Role) (n a : Nat) (d : Device) :
    (d.malloc r n a).footprint = d.footprint ++ [(a, n, r)] := by
  simp [Device.malloc, Device.footprint]

@[simp] theorem Device.footprint_upload (dst : Nat) (src : List Byte) (n : Nat) (d : Device) :
    (d.upload dst src n).footprint = d.footprint := by
  simp only [Device.upload, Device.footprint, List.map_map]
  apply List.map_congr_left
  intro a _
  simp only [Function.comp]
  split <;> rfl

/-! ## One launch on a device where every call succeeds -/

theorem Launch_allSucceed (w h : Int) (s : State) (hr : resizable w h) :
    Launch allSucceed w h s = Except.ok (HostPtr.host_pixels_data, launched w h s) := by
  have hr' : toSizeT (wrapInt32 (w * h)) ≤ vector_max_size := hr
  simp [launched, Launch, CUDA_SYNC_CHECK, checked_allSucceed, checkedNew_allSucceed,
    host_pixels_resize_of_resizable hr', bind, Except.bind, pure, Except.pure]

theorem launched_globals (w h : Int) (s : State) :
    (launched w h s).context = s.context ∧ (launched w h s).module = s.module ∧
    (launched w h s).raygen_prog_group = s.raygen_prog_group ∧
    (launched w h s).miss_prog_group = s.miss_prog_group ∧
    (launched w h s).pipeline = s.pipeline ∧ (launched w h s).sbt = s.sbt ∧
    (launched w h s).dev.objects = s.dev.objects := by
  by_cases hr : toSizeT (wrapInt32 (w * h)) ≤ vector_max_size
  · simp [launched, Launch, CUDA_SYNC_CHECK, checked_allSucceed, checkedNew_allSucceed,
      host_pixels_resize_of_resizable hr, bind, Except.bind, pure, Except.pure]
  · simp [launched, Launch, CUDA_SYNC_CHECK, checked_allSucceed, checkedNew_allSucceed,
      host_pixels_resize_of_not_resizable (Nat.lt_of_not_le hr), bind, Except.bind, pure,
      Except.pure, Failure.state]

theorem launched_device_pixels (w h : Int) (s : State) :
    (launched w h s).device_pixels = s.dev.next := by
  by_cases hr : toSizeT (wrapInt32 (w * h)) ≤ vector_max_size
  · simp [launched, Launch, CUDA_SYNC_CHECK, checked_allSucceed, checkedNew_allSucceed,
      host_pixels_resize_of_resizable hr, bind, Except.bind, pure, Except.pure]
  · simp [launched, Launch, CUDA_SYNC_CHECK, checked_allSucceed, checkedNew_allSucceed,
      host_pixels_resize_of_not_resizable (Nat.lt_of_not_le hr), bind, Except.bind, pure,
      Except.pure, Failure.state]

theorem launched_next (w h : Int) (s : State) :
    (launched w h s).dev.next = s.dev.next + 3 := by
  by_cases hr : toSizeT (wrapInt32 (w * h)) ≤ vector_max_size
  · simp [launched, Launch, CUDA_SYNC_CHECK, checked_allSucceed, checkedNew_allSucceed,
      host_pixels_resize_of_resizable hr, bind, Except.bind, pure, Except.pure]
  · simp [launched, Launch, CUDA_SYNC_CHECK, checked_allSucceed, checkedNew_allSucceed,
      host_pixels_resize_of_not_resizable (Nat.lt_of_not_le hr), bind, Except.bind, pure,
      Except.pure, Failure.state]

theorem launched_streams (w h : Int) (s : State) :
    (launched w h s).dev.streams = s.dev.streams ++ [s.dev.next + 1] := by
  by_cases hr : toSizeT (wrapInt32 (w * h)) ≤ vector_max_size
  · simp [launched, Launch, CUDA_SYNC_CHECK, checked_allSucceed, checkedNew_allSucceed,
      host_pixels_resize_of_resizable hr, bind, Except.bind, pure, Except.pure]
  · simp [launched, Launch, CUDA_SYNC_CHECK, checked_allSucceed, checkedNew_allSucceed,
      host_pixels_resize_of_not_resizable (Nat.lt_of_not_le hr), bind, Except.bind, pure,
      Except.pure, Failure.state]

theorem launched_host_pixels (w h : Int) (s : State) (hr : resizable w h) :
    (launched w h s).host_pixels = copyToHost s.dev.next (framebufferBytes w h) 0
        (s.host_pixels.take (toSizeT (wrapInt32 (w * h)))
          ++ List.replicate (toSizeT (wrapInt32 (w * h)) - s.host_pixels.length)
              uchar4.zero) := by
  have hr' : toSizeT (wrapInt32 (w * h)) ≤ vector_max_size := hr
  simp [launched, Launch, CUDA_SYNC_CHECK, checked_allSucceed, checkedNew_allSucceed,
    host_pixels_resize_of_resizable hr', bind, Except.bind, pure, Except.pure, framebufferBytes]

theorem launched_footprint (w h : Int) (s : State) :
    (launched w h s).dev.footprint = (s.dev.free s.device_pixels).footprint
        ++ [(s.dev.next, framebufferBytes w h, Role.framebuffer),
            (s.dev.next + 2, Params.size, Role.launchParams)] := by
  by_cases hr : toSizeT (wrapInt32 (w * h)) ≤ vector_max_size
  · simp [launched, Launch, CUDA_SYNC_CHECK, checked_allSucceed, checkedNew_allSucceed,
      host_pixels_resize_of_resizable hr, bind, Except.bind, pure, Except.pure,
      framebufferBytes]
  · simp [launched, Launch, CUDA_SYNC_CHECK, checked_allSucceed, checkedNew_allSucceed,
      host_pixels_resize_of_not_resizable (Nat.lt_of_not_le hr), bind, Except.bind, pure,
      Except.pure, Failure.state, framebufferBytes]

theorem launched_trace (w h : Int) (s : State) (hr : resizable w h) :
    (launched w h s).dev.trace = s.dev.trace ++
      [(Call.cudaFree s.device_pixels, 0), (Call.cudaMalloc (framebufferBytes w h), 0),
       (Call.cudaStreamCreate, 0), (Call.cudaMalloc Params.size, 0),
       (Call.cudaMemcpyHostToDevice (s.dev.next + 2) Params.size, 0),
       (Call.optixLaunch s.pipeline (s.dev.next + 1) (s.dev.next + 2) Params.size s.sbt
          (toUInt32 w) (toUInt32 h) 1, 0),
       (Call.cudaDeviceSynchronize, 0), (Call.cudaSetDevice 0, 0),
       (Call.cudaStreamSynchronize 0, 0),
       (Call.cudaMemcpyDeviceToHost s.dev.next (framebufferBytes w h), 0)] := by
  have hr' : toSizeT (wrapInt32 (w * h)) ≤ vector_max_size := hr
  simp [launched, Launch, CUDA_SYNC_CHECK, checked_allSucceed, checkedNew_allSucceed,
    host_pixels_resize_of_resizable hr', bind, Except.bind, pure, Except.pure, framebufferBytes]

/-! ## The invariant between Init and Cleanup -/

theorem filter_filter_of_imp {α : Type} (p q : α → Bool) (l : List α)
    (h : ∀ e ∈ l, p e = true → q e = true) : (l.filter q).filter p = l.filter p := by
  rw [List.filter_filter]
  apply List.filter_congr
  intro e he
  cases hp : p e with
  | false => rfl
  | true => simp [h e he hp]

theorem length_eq_sum_roles (l : List (Nat × Nat × Role)) :
    l.length = (l.filter (fun e => decide (e.2.2 = Role.raygenRecord))).length
      + (l.filter (fun e => decide (e.2.2 = Role.missRecord))).length
      + (l.filter (fun e => decide (e.2.2 = Role.framebuffer))).length
      + (l.filter (fun e => decide (e.2.2 = Role.launchParams))).length := by
  induction l with
  | nil => rfl
  | cons e l ih =>
    obtain ⟨a, n, r⟩ := e
    cases r <;> simp [List.filter_cons] <;> omega

theorem ready_Ready : Ready 0 ready := by
  constructor <;> first | rfl | decide | (intro h; first | rfl | (exact absurd h (by decide)))

theorem Device.mem_footprint_free {d : Device} {p : Nat} {e : Nat × Nat × Role}
    (h : e ∈ (d.free p).footprint) : e ∈ d.footprint := by
  rw [Device.footprint_free] at h
  split at h
  · exact h
  · exact (List.mem_filter.mp h).1

/-- Freeing the framebuffer leaves the allocations of every other role alone. -/
theorem Device.free_withRole_of_ne (d : Device) (p : Nat) (r : Role)
    (h : ∀ e ∈ d.footprint, e.1 = p → e.2.2 ≠ r) :
    (d.free p).withRole r = d.withRole r := by
  unfold Device.withRole
  rw [Device.footprint_free]
  split
  · rfl
  · apply filter_filter_of_imp
    intro e he hr
    have hr' : e.2.2 = r := of_decide_eq_true hr
    exact decide_eq_true (fun hp => h e he hp hr')

theorem Device.free_withRole_comm (d : Device) (p : Nat) (r : Role) (hp : p ≠ 0) :
    (d.free p).withRole r = (d.withRole r).filter (fun e => decide (e.1 ≠ p)) := by
  unfold Device.withRole
  rw [Device.footprint_free, if_neg hp, List.filter_filter, List.filter_filter]
  apply List.filter_congr
  intro e _
  exact Bool.and_comm _ _

theorem Ready.free_framebuffer {n : Nat} {s : State} (hs : Ready n s) :
    (s.dev.free s.device_pixels).withRole Role.framebuffer = [] := by
  rcases Nat.eq_zero_or_pos n with h0 | hpos
  · rw [hs.pixels_null h0]
    exact hs.framebuffer_none h0
  · have hne : s.device_pixels ≠ 0 := by have := hs.pixels_ge hpos; omega
    obtain ⟨size, hfb⟩ := hs.framebuffer_one hpos
    rw [Device.free_withRole_comm _ _ _ hne, hfb]
    simp

theorem Ready.free_other {n : Nat} {s : State} (hs : Ready n s) (r : Role)
    (hr : r ≠ Role.framebuffer) :
    (s.dev.free s.device_pixels).withRole r = s.dev.withRole r :=
  Device.free_withRole_of_ne _ _ _ (fun e he hp hrole => hr (hrole ▸ hs.pixels_role e he hp))

theorem launched_withRole (w h : Int) (s : State) (r : Role) :
    (launched w h s).dev.withRole r = (s.dev.free s.device_pixels).withRole r
      ++ [(s.dev.next, framebufferBytes w h, Role.framebuffer),
          (s.dev.next + 2, Params.size, Role.launchParams)].filter
            (fun e => decide (e.2.2 = r)) := by
  unfold Device.withRole
  rw [launched_footprint, List.filter_append]

/-- One successful `Launch` keeps the invariant and counts one more launch. -/
theorem Ready.step {n : Nat} {s : State} (hs : Ready n s) (w h : Int) :
    Ready (n + 1) (launched w h s) := by
  obtain ⟨g1, g2, g3, g4, g5, g6, g7⟩ := launched_globals w h s
  have hmem : ∀ e ∈ (launched w h s).dev.footprint,
      e ∈ s.dev.footprint ∨ e = (s.dev.next, framebufferBytes w h, Role.framebuffer)
        ∨ e = (s.dev.next + 2, Params.size, Role.launchParams) := by
    intro e he
    rw [launched_footprint] at he
    rcases List.mem_append.mp he with h1 | h1
    · exact Or.inl (Device.mem_footprint_free h1)
    · simp only [List.mem_cons, List.mem_singleton, List.not_mem_nil, or_false] at h1
      exact Or.inr h1
  refine
    { context := g1.trans hs.context
      module := g2.trans hs.module
      raygen_prog_group := g3.trans hs.raygen_prog_group
      miss_prog_group := g4.trans hs.miss_prog_group
      pipeline := g5.trans hs.pipeline
      sbt := g6.trans hs.sbt
      objects := g7.trans hs.objects
      next_ge := ?_, addr_lt := ?_, pixels_null := ?_, pixels_ge := ?_
      raygenRecord := ?_, missRecord := ?_, framebuffer_none := ?_, framebuffer_one := ?_
      pixels_role := ?_, launchParams := ?_, launchParams_size := ?_, streams := ?_
      shape := ?_ }
  · rw [launched_next]; have := hs.next_ge; omega
  · intro e he
    rw [launched_next]
    rcases hmem e he with h1 | h1 | h1
    · have := hs.addr_lt e h1; omega
    · rw [h1]; simp
    · rw [h1]; simp
  · intro h0; omega
  · intro _; rw [launched_device_pixels]; exact hs.next_ge
  · rw [launched_withRole, hs.free_other _ (by decide), hs.raygenRecord]; simp
  · rw [launched_withRole, hs.free_other _ (by decide), hs.missRecord]; simp
  · intro h0; omega
  · intro _
    refine ⟨framebufferBytes w h, ?_⟩
    rw [launched_withRole, hs.free_framebuffer, launched_device_pixels]; simp
  · intro e he hp
    rw [launched_device_pixels] at hp
    rcases hmem e he with h1 | h1 | h1
    · have := hs.addr_lt e h1; omega
    · rw [h1]
    · rw [h1] at hp; simp at hp
  · rw [launched_withRole, hs.free_other _ (by decide), List.length_append, hs.launchParams]
    simp
  · intro e he hr
    rcases hmem e he with h1 | h1 | h1
    · exact hs.launchParams_size e h1 hr
    · rw [h1] at hr; simp at hr
    · rw [h1]
  · rw [launched_streams, List.length_append, hs.streams]; rfl
  · intro e he
    have hn := hs.next_ge
    rcases hmem e he with h1 | h1 | h1
    · exact hs.shape e h1
    · rw [h1]; exact Or.inr (Or.inr ⟨hn, Or.inl rfl⟩)
    · rw [h1]; exact Or.inr (Or.inr ⟨by show 8 ≤ s.dev.next + 2; omega, Or.inr rfl⟩)

theorem launches_allSucceed (dims : List (Int × Int)) (s : State)
    (hdims : ∀ d ∈ dims, resizable d.1 d.2) :
    launches allSucceed dims s = Except.ok (launchedAll dims s) := by
  induction dims generalizing s with
  | nil => rfl
  | cons d rest ih =>
    obtain ⟨w, h⟩ := d
    show (Launch allSucceed w h s >>= fun r => launches allSucceed rest r.2) = _
    rw [Launch_allSucceed w h s (hdims (w, h) (List.mem_cons_self _ _))]
    exact ih _ (fun d hd => hdims d (List.mem_cons_of_mem _ hd))

theorem Ready.steps {n : Nat} {s : State} (hs : Ready n s) (dims : List (Int × Int)) :
    Ready (n + dims.length) (launchedAll dims s) := by
  induction dims generalizing n s with
  | nil => exact hs
  | cons d rest ih =>
    obtain ⟨w, h⟩ := d
    have := ih (hs.step w h)
    rw [List.length_cons]
    rw [show n + (rest.length + 1) = n + 1 + rest.length by omega]
    exact this

/-- With every device call succeeding, `Init` followed by any run of launches
returns, in a state satisfying the invariant. -/
theorem Init_launches_ok (ok : Oracle) (hok : ∀ k, ok k = 0) (dims : List (Int × Int))
    (hdims : ∀ d ∈ dims, resizable d.1 d.2) :
    (Init ok State.init >>= launches ok dims) = Except.ok (launchedAll dims ready) ∧
      Ready dims.length (launchedAll dims ready) := by
  obtain rfl := oracle_eq_allSucceed hok
  refine ⟨?_, ?_⟩
  · rw [Init_allSucceed]
    exact launches_allSucceed dims ready hdims
  · have := ready_Ready.steps dims
    rwa [Nat.zero_add] at this

/-! ## Cleanup on a device where every call succeeds -/

theorem Cleanup_allSucceed (s : State) : Cleanup allSucceed s = Except.ok (cleaned s) := rfl

theorem cleaned_trace (s : State) :
    (cleaned s).dev.trace = s.dev.trace ++
      [(Call.cudaFree s.sbt.raygenRecord, 0), (Call.cudaFree s.sbt.missRecordBase, 0),
       (Call.optixPipelineDestroy s.pipeline, 0),
       (Call.optixProgramGroupDestroy s.miss_prog_group, 0),
       (Call.optixProgramGroupDestroy s.raygen_prog_group, 0),
       (Call.optixModuleDestroy s.module, 0), (Call.optixDeviceContextDestroy s.context, 0)] := by
  simp [cleaned, Cleanup, checked_allSucceed, bind, Except.bind]

theorem cleaned_footprint (s : State) :
    (cleaned s).dev.footprint
      = ((s.dev.free s.sbt.raygenRecord).free s.sbt.missRecordBase).footprint := by
  simp [cleaned, Cleanup, checked_allSucceed, bind, Except.bind]

theorem cleaned_streams (s : State) : (cleaned s).dev.streams = s.dev.streams := by
  simp [cleaned, Cleanup, checked_allSucceed, bind, Except.bind]

theorem cleaned_objects (s : State) :
    (cleaned s).dev.objects = s.dev.objects.filter (fun o =>
      decide (o.handle ≠ s.pipeline) && decide (o.handle ≠ s.miss_prog_group)
        && decide (o.handle ≠ s.raygen_prog_group) && decide (o.handle ≠ s.module)
        && decide (o.handle ≠ s.context)) := by
  simp [cleaned, Cleanup, checked_allSucceed, bind, Except.bind, List.filter_filter]
  apply List.filter_congr
  intro o _
  simp only [Bool.and_assoc, Bool.and_comm, Bool.and_left_comm]

theorem cleaned_handles (s : State) :
    (cleaned s).sbt = s.sbt ∧ (cleaned s).pipeline = s.pipeline ∧
    (cleaned s).miss_prog_group = s.miss_prog_group ∧
    (cleaned s).raygen_prog_group = s.raygen_prog_group ∧
    (cleaned s).module = s.module ∧ (cleaned s).context = s.context ∧
    (cleaned s).device_pixels = s.device_pixels := by
  simp [cleaned, Cleanup, checked_allSucceed, bind, Except.bind]

/-! ## Host buffer size -/

theorem length_resize (v : List uchar4) (n : Nat) :
    (v.take n ++ List.replicate (n - v.length) uchar4.zero).length = n := by
  rw [List.length_append, List.length_take, List.length_replicate]
  omega

theorem length_copyToHost (src count : Nat) (k : Nat) (v : List uchar4) :
    (copyToHost src count k v).length = v.length := by
  induction v generalizing k with
  | nil => rfl
  | cons p ps ih => simp [copyToHost, ih]

theorem launched_host_length (w h : Int) (s : State) (hr : resizable w h) :
    (launched w h s).host_pixels.length = toSizeT (wrapInt32 (w * h)) := by
  rw [launched_host_pixels w h s hr, length_copyToHost, length_resize]

theorem resizable_of_fits (w h : Int) (h0 : 0 ≤ w * h) (h1 : w * h ≤ 2147483647) :
    resizable w h := by
  rw [resizable_iff]
  unfold wrapInt32
  omega

theorem toSizeT_wrapInt32_of_fits (x : Int) (h0 : 0 ≤ x) (h1 : x ≤ 2147483647) :
    (toSizeT (wrapInt32 x) : Int) = x := by
  unfold toSizeT wrapInt32
  omega

theorem framebufferBytes_of_fits (w h : Int) (h0 : 0 ≤ w * h) (h1 : w * h ≤ 2147483647) :
    (framebufferBytes w h : Int) = w * h * 4 := by
  have hx := toSizeT_wrapInt32_of_fits (w * h) h0 h1
  unfold framebufferBytes mulSizeT
  generalize toSizeT (wrapInt32 (w * h)) = n at hx
  generalize w * h = x at hx h0 h1
  have : c_uchar4.size = 4 := rfl
  rw [this]
  omega

/-- C1 (as amended).  For `width, height > 0` whose product fits an `int`
(`width * height ≤ 2^31 - 1`), when all device calls succeed, `Launch` in
any state (in particular after `Init`) returns the address of the host pixel
buffer and leaves that buffer with exactly `width * height` elements. -/
theorem Launch_host_buffer_size (ok : Oracle) (s : State) (w h : Int)
    (hok : ∀ k, ok k = 0) (hw : 0 < w) (hh : 0 < h) (hfit : w * h ≤ 2147483647) :
    ∃ s', Launch ok w h s = Except.ok (HostPtr.host_pixels_data, s') ∧
      ((HostPtr.host_pixels_data.deref s').length : Int) = w * h := by
  obtain rfl := oracle_eq_allSucceed hok
  have hr : resizable w h := resizable_of_fits w h (le_of_lt (Int.mul_pos hw hh)) hfit
  refine ⟨launched w h s, Launch_allSucceed w h s hr, ?_⟩
  show (((launched w h s).host_pixels.length : Nat) : Int) = w * h
  rw [launched_host_length w h s hr]
  exact toSizeT_wrapInt32_of_fits _ (le_of_lt (Int.mul_pos hw hh)) hfit

/-- C1 (witness): `Launch(4, 2)` after `Init` leaves 8 pixels. -/
theorem Launch_host_buffer_size_witness :
    ∃ s', Launch allSucceed 4 2 ready = Except.ok (HostPtr.host_pixels_data, s') ∧
      ((HostPtr.host_pixels_data.deref s').length : Int) = 4 * 2 :=
  Launch_host_buffer_size allSucceed ready 4 2 (fun _ => rfl) (by decide) (by decide) (by decide)

/-- C1 (counterexample).  After `Init`, with all device calls succeeding,
`Launch(65536, 65537)` (both positive 32-bit ints) returns the host buffer
with 65536 elements, not the product 65536 × 65537 = 4295032832: the `int`
multiplication wraps. -/
theorem Launch_host_buffer_size_overflow :
    (0 : Int) < 65536 ∧ (65537 : Int) ≤ 2147483647 ∧
    ∃ s s', Init allSucceed State.init = Except.ok s ∧
      Launch allSucceed 65536 65537 s = Except.ok (HostPtr.host_pixels_data, s') ∧
      (HostPtr.host_pixels_data.deref s').length = 65536 ∧
      ((HostPtr.host_pixels_data.deref s').length : Int) ≠ 65536 * 65537 := by
  refine ⟨by decide, by decide, ready, launched 65536 65537 ready, Init_allSucceed,
    Launch_allSucceed _ _ _ (by decide), ?_, ?_⟩
  · show (launched 65536 65537 ready).host_pixels.length = 65536
    rw [launched_host_length _ _ _ (by decide)]
    decide
  · show (((launched 65536 65537 ready).host_pixels.length : Nat) : Int) ≠ _
    rw [launched_host_length _ _ _ (by decide)]
    decide

/-! ## Resources left after Cleanup -/

/-- C2 (evaluation at the failing input).  `Init(); Launch(1, 1); Cleanup()`
with every device call succeeding ends with three device resources still
live: the framebuffer, the launch-parameter block and the stream of that
`Launch`.  Without a `Launch` in between, nothing stays live. -/
theorem Cleanup_leaves_launch_resources :
    (∃ s₁ s₂ s₃, Init allSucceed State.init = Except.ok s₁ ∧
      Launch allSucceed 1 1 s₁ = Except.ok (HostPtr.host_pixels_data, s₂) ∧
      Cleanup allSucceed s₂ = Except.ok s₃ ∧
      s₃.dev.footprint = [(8, 4, Role.framebuffer), (10, 16, Role.launchParams)] ∧
      s₃.dev.streams = [9] ∧ s₃.dev.objects = [] ∧ ¬ s₃.dev.noLiveResources) ∧
    (∃ s₁ s₃, Init allSucceed State.init = Except.ok s₁ ∧
      Cleanup allSucceed s₁ = Except.ok s₃ ∧ s₃.dev.noLiveResources) := by
  refine ⟨⟨ready, launched 1 1 ready, cleaned (launched 1 1 ready), Init_allSucceed,
    Launch_allSucceed _ _ _ (by decide), Cleanup_allSucceed _, ?_, ?_, ?_, ?_⟩,
    ⟨ready, cleaned ready, Init_allSucceed, Cleanup_allSucceed _, ?_⟩⟩
  · decide
  · decide
  · decide
  · decide
  · decide

/-! ## The release sequence of Cleanup -/

theorem Device.free_records_withRole (d : Device) (r : Role) :
    ((d.free 6).free 7).withRole r
      = (d.withRole r).filter (fun e => decide (e.1 ≠ 6) && decide (e.1 ≠ 7)) := by
  rw [Device.free_withRole_comm _ _ _ (by decide), Device.free_withRole_comm _ _ _ (by decide),
    List.filter_filter]
  apply List.filter_congr
  intro e _
  exact Bool.and_comm _ _

theorem Ready.free_records_other {n : Nat} {s : State} (hs : Ready n s) (r : Role)
    (hr : r = Role.framebuffer ∨ r = Role.launchParams) :
    ((s.dev.free 6).free 7).withRole r = s.dev.withRole r := by
  rw [Device.free_records_withRole]
  apply List.filter_eq_self.mpr
  intro e he
  have hmem := List.mem_filter.mp he
  have hrole : e.2.2 = r := of_decide_eq_true hmem.2
  rcases hs.shape e hmem.1 with h1 | h1 | h1
  · rw [h1] at hrole; rcases hr with h | h <;> rw [h] at hrole <;> cases hrole
  · rw [h1] at hrole; rcases hr with h | h <;> rw [h] at hrole <;> cases hrole
  · have : 8 ≤ e.1 := h1.1
    simp only [ne_eq, Bool.and_eq_true, decide_eq_true_eq]
    omega

/-- C3.  After `Init` and any run of launches that return (every device call
succeeding, every `resize` accepted), `Cleanup` issues exactly seven release
calls, in this order: free the
ray-generation record, free the miss record, destroy the pipeline, destroy
the miss and the ray-generation program group, destroy the module, destroy
the context.  The seven handles are pairwise distinct, each names a resource
that is live before and released after, and nothing else is released. -/
theorem Cleanup_release_sequence (ok : Oracle) (hok : ∀ k, ok k = 0) (dims : List (Int × Int))
    (hdims : ∀ d ∈ dims, resizable d.1 d.2) :
    ∃ s s', (Init ok State.init >>= launches ok dims) = Except.ok s ∧
      Cleanup ok s = Except.ok s' ∧
      issued s s' =
        [(Call.cudaFree s.sbt.raygenRecord, 0), (Call.cudaFree s.sbt.missRecordBase, 0),
         (Call.optixPipelineDestroy s.pipeline, 0),
         (Call.optixProgramGroupDestroy s.miss_prog_group, 0),
         (Call.optixProgramGroupDestroy s.raygen_prog_group, 0),
         (Call.optixModuleDestroy s.module, 0), (Call.optixDeviceContextDestroy s.context, 0)] ∧
      [s.sbt.raygenRecord, s.sbt.missRecordBase, s.pipeline, s.miss_prog_group,
        s.raygen_prog_group, s.module, s.context].Nodup ∧
      s.dev.withRole Role.raygenRecord
        = [(s.sbt.raygenRecord, RayGenSbtRecord.size, Role.raygenRecord)] ∧
      s.dev.withRole Role.missRecord
        = [(s.sbt.missRecordBase, MissSbtRecord.size, Role.missRecord)] ∧
      s.dev.objects =
        [{ handle := s.context, kind := ObjectKind.context },
         { handle := s.module, kind := ObjectKind.module },
         { handle := s.raygen_prog_group, kind := ObjectKind.programGroup ProgramGroupKind.raygen },
         { handle := s.miss_prog_group, kind := ObjectKind.programGroup ProgramGroupKind.miss },
         { handle := s.pipeline, kind := ObjectKind.pipeline }] ∧
      s'.dev.withRole Role.raygenRecord = [] ∧ s'.dev.withRole Role.missRecord = [] ∧
      s'.dev.objects = [] ∧
      s'.dev.withRole Role.framebuffer = s.dev.withRole Role.framebuffer ∧
      s'.dev.withRole Role.launchParams = s.dev.withRole Role.launchParams ∧
      s'.dev.streams = s.dev.streams := by
  obtain ⟨hrun, hs⟩ := Init_launches_ok ok hok dims hdims
  obtain rfl := oracle_eq_allSucceed hok
  generalize launchedAll dims ready = s at hrun hs
  have hfp : ∀ r, (cleaned s).dev.withRole r = ((s.dev.free 6).free 7).withRole r := by
    intro r
    unfold Device.withRole
    rw [cleaned_footprint, hs.sbt]
  refine ⟨s, cleaned s, hrun, Cleanup_allSucceed s, issued_of_trace_eq (cleaned_trace s),
    ?_, ?_, ?_, ?_, ?_, ?_, ?_, ?_, ?_, cleaned_streams s⟩
  · rw [hs.sbt, hs.pipeline, hs.miss_prog_group, hs.raygen_prog_group, hs.module, hs.context]
    decide
  · rw [hs.raygenRecord, hs.sbt]; rfl
  · rw [hs.missRecord, hs.sbt]; rfl
  · rw [hs.objects, hs.pipeline, hs.miss_prog_group, hs.raygen_prog_group, hs.module,
      hs.context]
  · rw [hfp, Device.free_records_withRole, hs.raygenRecord]; rfl
  · rw [hfp, Device.free_records_withRole, hs.missRecord]; rfl
  · rw [cleaned_objects, hs.objects, hs.pipeline, hs.miss_prog_group, hs.raygen_prog_group,
      hs.module, hs.context]
    rfl
  · rw [hfp, hs.free_records_other _ (Or.inl rfl)]
  · rw [hfp, hs.free_records_other _ (Or.inr rfl)]

/-- C3 (witness): `Init(); Launch(4, 2); Cleanup()`. -/
theorem Cleanup_release_sequence_witness :
    ∃ s s', (Init allSucceed State.init >>= launches allSucceed [(4, 2)]) = Except.ok s ∧
      Cleanup allSucceed s = Except.ok s' ∧
      issued s s' =
        [(Call.cudaFree s.sbt.raygenRecord, 0), (Call.cudaFree s.sbt.missRecordBase, 0),
         (Call.optixPipelineDestroy s.pipeline, 0),
         (Call.optixProgramGroupDestroy s.miss_prog_group, 0),
         (Call.optixProgramGroupDestroy s.raygen_prog_group, 0),
         (Call.optixModuleDestroy s.module, 0), (Call.optixDeviceContextDestroy s.context, 0)] ∧
      [s.sbt.raygenRecord, s.sbt.missRecordBase, s.pipeline, s.miss_prog_group,
        s.raygen_prog_group, s.module, s.context].Nodup ∧
      s.dev.withRole Role.raygenRecord
        = [(s.sbt.raygenRecord, RayGenSbtRecord.size, Role.raygenRecord)] ∧
      s.dev.withRole Role.missRecord
        = [(s.sbt.missRecordBase, MissSbtRecord.size, Role.missRecord)] ∧
      s.dev.objects =
        [{ handle := s.context, kind := ObjectKind.context },
         { handle := s.module, kind := ObjectKind.module },
         { handle := s.raygen_prog_group, kind := ObjectKind.programGroup ProgramGroupKind.raygen },
         { handle := s.miss_prog_group, kind := ObjectKind.programGroup ProgramGroupKind.miss },
         { handle := s.pipeline, kind := ObjectKind.pipeline }] ∧
      s'.dev.withRole Role.raygenRecord = [] ∧ s'.dev.withRole Role.missRecord = [] ∧
      s'.dev.objects = [] ∧
      s'.dev.withRole Role.framebuffer = s.dev.withRole Role.framebuffer ∧
      s'.dev.withRole Role.launchParams = s.dev.withRole Role.launchParams ∧
      s'.dev.streams = s.dev.streams :=
  Cleanup_release_sequence allSucceed (fun _ => rfl) [(4, 2)] (by decide)

/-! ## The framebuffer across launches -/

theorem Ready.previous_framebuffer_freed {n : Nat} {s : State} (hs : Ready n s) (w h : Int) :
    ∀ e ∈ (launched w h s).dev.footprint, e.1 ≠ s.device_pixels := by
  intro e he heq
  rw [launched_footprint] at he
  rcases Nat.eq_zero_or_pos n with h0 | hpos
  · -- first launch: the handle is null, and no live address is null
    have hnull := hs.pixels_null h0
    have hge : 6 ≤ e.1 := by
      rcases (hs.step w h).shape e (by rw [launched_footprint]; exact he) with h1 | h1 | h1
      · rw [h1]
      · rw [h1]; exact Nat.le_succ 6
      · exact le_trans (by decide) h1.1
    omega
  · have hne : s.device_pixels ≠ 0 := by have := hs.pixels_ge hpos; omega
    obtain ⟨size, hfb⟩ := hs.framebuffer_one hpos
    have hlive : (s.device_pixels, size, Role.framebuffer) ∈ s.dev.footprint := by
      have : (s.device_pixels, size, Role.framebuffer) ∈ s.dev.withRole Role.framebuffer := by
        rw [hfb]; exact List.mem_singleton.mpr rfl
      exact (List.mem_filter.mp this).1
    have hlt : s.device_pixels < s.dev.next := hs.addr_lt _ hlive
    rcases List.mem_append.mp he with h1 | h1
    · rw [Device.footprint_free, if_neg hne] at h1
      have := (List.mem_filter.mp h1).2
      exact (of_decide_eq_true this) heq
    · simp only [List.mem_cons, List.mem_singleton, List.not_mem_nil, or_false] at h1
      rcases h1 with h1 | h1
      · rw [h1] at heq; simp only at heq; omega
      · rw [h1] at heq; simp only at heq; omega

/-- C8 (as amended).  After `Init` and any run of launches that return
(possibly none, in which case the framebuffer handle is null), a further
`Launch(width, height)` with `width, height > 0` and
`width * height ≤ 2^31 - 1` first frees the framebuffer of the previous
launch and then allocates one of exactly `width * height * 4` bytes; after it
the previous framebuffer is no longer live, exactly one framebuffer
allocation is live, and `device_pixels` is its address. -/
theorem Launch_reallocates_framebuffer (ok : Oracle) (dims : List (Int × Int)) (w h : Int)
    (hok : ∀ k, ok k = 0) (hdims : ∀ d ∈ dims, resizable d.1 d.2)
    (hw : 0 < w) (hh : 0 < h) (hfit : w * h ≤ 2147483647) :
    ∃ s s', (Init ok State.init >>= launches ok dims) = Except.ok s ∧
      Launch ok w h s = Except.ok (HostPtr.host_pixels_data, s') ∧
      (dims = [] → s.device_pixels = 0 ∧ s.dev.free s.device_pixels = s.dev) ∧
      (dims ≠ [] → ∃ size,
        s.dev.withRole Role.framebuffer = [(s.device_pixels, size, Role.framebuffer)]) ∧
      (issued s s').take 2
        = [(Call.cudaFree s.device_pixels, 0), (Call.cudaMalloc (framebufferBytes w h), 0)] ∧
      (framebufferBytes w h : Int) = w * h * 4 ∧
      (∀ e ∈ s'.dev.footprint, e.1 ≠ s.device_pixels) ∧
      s'.dev.withRole Role.framebuffer
        = [(s'.device_pixels, framebufferBytes w h, Role.framebuffer)] := by
  obtain ⟨hrun, hs⟩ := Init_launches_ok ok hok dims hdims
  obtain rfl := oracle_eq_allSucceed hok
  generalize launchedAll dims ready = s at hrun hs
  have hr : resizable w h := resizable_of_fits w h (le_of_lt (Int.mul_pos hw hh)) hfit
  refine ⟨s, launched w h s, hrun, Launch_allSucceed w h s hr, ?_, ?_, ?_,
    framebufferBytes_of_fits w h (le_of_lt (Int.mul_pos hw hh)) hfit,
    hs.previous_framebuffer_freed w h, ?_⟩
  · intro hnil
    have h0 : s.device_pixels = 0 := hs.pixels_null (by rw [hnil]; rfl)
    exact ⟨h0, by rw [h0]; rfl⟩
  · intro hne
    exact hs.framebuffer_one (List.length_pos.mpr hne)
  · rw [issued_of_trace_eq (launched_trace w h s hr)]
    rfl
  · rw [launched_withRole, hs.free_framebuffer, launched_device_pixels]
    simp

/-- C8 (witness): `Init(); Launch(64, 64); Launch(512, 384)`. -/
theorem Launch_reallocates_framebuffer_witness :
    ∃ s s', (Init allSucceed State.init >>= launches allSucceed [(64, 64)]) = Except.ok s ∧
      Launch allSucceed 512 384 s = Except.ok (HostPtr.host_pixels_data, s') ∧
      (([(64, 64)] : List (Int × Int)) = [] →
        s.device_pixels = 0 ∧ s.dev.free s.device_pixels = s.dev) ∧
      (([(64, 64)] : List (Int × Int)) ≠ [] → ∃ size,
        s.dev.withRole Role.framebuffer = [(s.device_pixels, size, Role.framebuffer)]) ∧
      (issued s s').take 2
        = [(Call.cudaFree s.device_pixels, 0), (Call.cudaMalloc (framebufferBytes 512 384), 0)] ∧
      (framebufferBytes 512 384 : Int) = 512 * 384 * 4 ∧
      (∀ e ∈ s'.dev.footprint, e.1 ≠ s.device_pixels) ∧
      s'.dev.withRole Role.framebuffer
        = [(s'.device_pixels, framebufferBytes 512 384, Role.framebuffer)] :=
  Launch_reallocates_framebuffer allSucceed [(64, 64)] 512 384 (fun _ => rfl)
    (by decide) (by decide) (by decide) (by decide)

/-- C8 (counterexample).  After `Init`, with all device calls succeeding,
`Launch(65537, 65536)` allocates a framebuffer of 262144 bytes, not of
65537 × 65536 × 4 = 17180131328 bytes: the `int` product wraps to 65536. -/
theorem Launch_framebuffer_size_overflow :
    (0 : Int) < 65537 ∧ (65537 : Int) ≤ 2147483647 ∧
    ∃ s s', Init allSucceed State.init = Except.ok s ∧
      Launch allSucceed 65537 65536 s = Except.ok (HostPtr.host_pixels_data, s') ∧
      (issued s s').take 2 = [(Call.cudaFree 0, 0), (Call.cudaMalloc 262144, 0)] ∧
      s'.dev.withRole Role.framebuffer = [(s'.device_pixels, 262144, Role.framebuffer)] ∧
      (262144 : Int) ≠ 65537 * 65536 * 4 := by
  refine ⟨by decide, by decide, ready, launched 65537 65536 ready, Init_allSucceed,
    Launch_allSucceed _ _ _ (by decide), ?_, ?_, by decide⟩
  · rw [issued_of_trace_eq (launched_trace _ _ _ (by decide))]
    decide
  · rw [launched_withRole, ready_Ready.free_framebuffer, launched_device_pixels]
    decide

/-! ## What a launch leaves behind -/

/-- C9.  After `Init` and `n ≥ 1` launches that return (every device call
succeeding, every `resize` accepted), the live resources are exactly: the two binding records, one
framebuffer, `n` launch-parameter blocks of `sizeof(Params)` bytes, `n`
streams, and the context, module, two program groups and pipeline.  The
number of live allocations is `n + 3`. -/
theorem Launch_keeps_params_and_stream (ok : Oracle) (dims : List (Int × Int))
    (hok : ∀ k, ok k = 0) (hdims : ∀ d ∈ dims, resizable d.1 d.2) (hn : 1 ≤ dims.length) :
    ∃ s, (Init ok State.init >>= launches ok dims) = Except.ok s ∧
      s.dev.withRole Role.raygenRecord
        = [(s.sbt.raygenRecord, RayGenSbtRecord.size, Role.raygenRecord)] ∧
      s.dev.withRole Role.missRecord
        = [(s.sbt.missRecordBase, MissSbtRecord.size, Role.missRecord)] ∧
      (s.dev.withRole Role.framebuffer).length = 1 ∧
      (s.dev.withRole Role.launchParams).length = dims.length ∧
      (∀ e ∈ s.dev.withRole Role.launchParams, e.2.1 = Params.size) ∧
      s.dev.streams.length = dims.length ∧
      s.dev.objects =
        [{ handle := s.context, kind := ObjectKind.context },
         { handle := s.module, kind := ObjectKind.module },
         { handle := s.raygen_prog_group, kind := ObjectKind.programGroup ProgramGroupKind.raygen },
         { handle := s.miss_prog_group, kind := ObjectKind.programGroup ProgramGroupKind.miss },
         { handle := s.pipeline, kind := ObjectKind.pipeline }] ∧
      s.dev.allocs.length = dims.length + 3 := by
  obtain ⟨hrun, hs⟩ := Init_launches_ok ok hok dims hdims
  generalize launchedAll dims ready = s at hrun hs
  obtain ⟨size, hfb⟩ := hs.framebuffer_one hn
  refine ⟨s, hrun, ?_, ?_, ?_, hs.launchParams, ?_, hs.streams, ?_, ?_⟩
  · rw [hs.raygenRecord, hs.sbt]; rfl
  · rw [hs.missRecord, hs.sbt]; rfl
  · rw [hfb]; rfl
  · intro e he
    have hmem := List.mem_filter.mp he
    exact hs.launchParams_size e hmem.1 (of_decide_eq_true hmem.2)
  · rw [hs.objects, hs.pipeline, hs.miss_prog_group, hs.raygen_prog_group, hs.module,
      hs.context]
  · have hlen : s.dev.allocs.length = s.dev.footprint.length := by
      unfold Device.footprint; rw [List.length_map]
    have hsum := length_eq_sum_roles s.dev.footprint
    have h1 : (s.dev.withRole Role.raygenRecord).length = 1 := by rw [hs.raygenRecord]; rfl
    have h2 : (s.dev.withRole Role.missRecord).length = 1 := by rw [hs.missRecord]; rfl
    have h3 : (s.dev.withRole Role.framebuffer).length = 1 := by rw [hfb]; rfl
    have h4 := hs.launchParams
    unfold Device.withRole at h1 h2 h3 h4
    omega

/-- C9 (witness): `Init(); Launch(64, 64); Launch(512, 384)`. -/
theorem Launch_keeps_params_and_stream_witness :
    ∃ s, (Init allSucceed State.init >>= launches allSucceed [(64, 64), (512, 384)])
        = Except.ok s ∧
      s.dev.withRole Role.raygenRecord
        = [(s.sbt.raygenRecord, RayGenSbtRecord.size, Role.raygenRecord)] ∧
      s.dev.withRole Role.missRecord
        = [(s.sbt.missRecordBase, MissSbtRecord.size, Role.missRecord)] ∧
      (s.dev.withRole Role.framebuffer).length = 1 ∧
      (s.dev.withRole Role.launchParams).length = [((64 : Int), (64 : Int)), (512, 384)].length ∧
      (∀ e ∈ s.dev.withRole Role.launchParams, e.2.1 = Params.size) ∧
      s.dev.streams.length = [((64 : Int), (64 : Int)), (512, 384)].length ∧
      s.dev.objects =
        [{ handle := s.context, kind := ObjectKind.context },
         { handle := s.module, kind := ObjectKind.module },
         { handle := s.raygen_prog_group, kind := ObjectKind.programGroup ProgramGroupKind.raygen },
         { handle := s.miss_prog_group, kind := ObjectKind.programGroup ProgramGroupKind.miss },
         { handle := s.pipeline, kind := ObjectKind.pipeline }] ∧
      s.dev.allocs.length = [((64 : Int), (64 : Int)), (512, 384)].length + 3 :=
  Launch_keeps_params_and_stream allSucceed [(64, 64), (512, 384)] (fun _ => rfl)
    (by decide) (by decide)

/-! ## A second Cleanup -/

theorem Cleanup_first_call (ok : Oracle) (s : State) :
    ∃ rest, issued s (finalState id (Cleanup ok s))
      = (Call.cudaFree s.sbt.raygenRecord, ok s.dev.trace.length) :: rest := by
  rw [issued_of_trace_eq (Cleanup_follows ok s).log]
  unfold Cleanup_script
  by_cases h : ok s.dev.trace.length = 0
  · simp only [follow, h, if_true]
    exact ⟨_, rfl⟩
  · simp only [follow, h, if_false]
    exact ⟨_, rfl⟩

theorem Cleanup_first_call_rejected (ok : Oracle) (s : State)
    (h : ok s.dev.trace.length ≠ 0) :
    ∃ x, Cleanup ok s = Except.error (Failure.device x) ∧
      x.call = Call.cudaFree s.sbt.raygenRecord ∧
      x.code = ok s.dev.trace.length ∧ issued s x.state = [(x.call, x.code)] := by
  refine ⟨{ call := Call.cudaFree s.sbt.raygenRecord, code := ok s.dev.trace.length,
            state := { s with dev := s.dev.log (Call.cudaFree s.sbt.raygenRecord)
                                      (ok s.dev.trace.length) } }, ?_, rfl, rfl, ?_⟩
  · simp [Cleanup, checked, bind, Except.bind, h]
  · simp [issued]

/-- C4 (as amended).  `Cleanup` has no guard and leaves the handles as
they are.  After a successful `Init` and `Cleanup`, the first device call
of a second `Cleanup` is again `cudaFree` on the ray-generation record,
which the first `Cleanup` released.  If the device rejects that call the
second `Cleanup` throws having issued only that call; if the second
`Cleanup` returns, it has re-issued the same seven release calls and left
the set of live resources unchanged. -/
theorem second_Cleanup_reissues_releases (ok : Oracle) (s₁ s₂ : State)
    (hInit : Init ok State.init = Except.ok s₁) (hCleanup : Cleanup ok s₁ = Except.ok s₂) :
    (s₁.sbt.raygenRecord, RayGenSbtRecord.size, Role.raygenRecord) ∈ s₁.dev.footprint ∧
    (Call.cudaFree s₁.sbt.raygenRecord, 0) ∈ issued s₁ s₂ ∧
    (∀ e ∈ s₂.dev.footprint, e.1 ≠ s₁.sbt.raygenRecord) ∧
    (∃ rest, issued s₂ (finalState id (Cleanup ok s₂))
      = (Call.cudaFree s₁.sbt.raygenRecord, ok s₂.dev.trace.length) :: rest) ∧
    (ok s₂.dev.trace.length ≠ 0 →
      ∃ x, Cleanup ok s₂ = Except.error (Failure.device x) ∧
        x.call = Call.cudaFree s₁.sbt.raygenRecord ∧
        x.code = ok s₂.dev.trace.length ∧ issued s₂ x.state = [(x.call, x.code)]) ∧
    (∀ s₃, Cleanup ok s₂ = Except.ok s₃ →
      issued s₂ s₃ = issued s₁ s₂ ∧ s₃.dev.footprint = s₂.dev.footprint ∧
      s₃.dev.streams = s₂.dev.streams ∧ s₃.dev.objects = s₂.dev.objects) := by
  obtain rfl := Init_eq_ok ok s₁ hInit
  have h2 : s₂ = cleaned ready :=
    Except.ok.inj ((Cleanup_eq_ok ok ready s₂ hCleanup).symm.trans (Cleanup_allSucceed ready))
  subst h2
  have hsbt : (cleaned ready).sbt = ready.sbt := (cleaned_handles ready).1
  refine ⟨by decide, by decide, by decide, ?_, ?_, ?_⟩
  · have := Cleanup_first_call ok (cleaned ready)
    rwa [hsbt] at this
  · intro h
    have := Cleanup_first_call_rejected ok (cleaned ready) h
    rwa [hsbt] at this
  · intro s₃ h3
    have h3' : s₃ = cleaned (cleaned ready) :=
      Except.ok.inj ((Cleanup_eq_ok ok _ s₃ h3).symm.trans (Cleanup_allSucceed _))
    subst h3'
    exact ⟨by decide, by decide, by decide, by decide⟩

/-- C4 (witness): `Init(); Cleanup(); Cleanup()` with every call succeeding. -/
theorem second_Cleanup_reissues_releases_witness :
    (ready.sbt.raygenRecord, RayGenSbtRecord.size, Role.raygenRecord) ∈ ready.dev.footprint ∧
    (Call.cudaFree ready.sbt.raygenRecord, 0) ∈ issued ready (cleaned ready) ∧
    (∀ e ∈ (cleaned ready).dev.footprint, e.1 ≠ ready.sbt.raygenRecord) ∧
    (∃ rest, issued (cleaned ready) (finalState id (Cleanup allSucceed (cleaned ready)))
      = (Call.cudaFree ready.sbt.raygenRecord, allSucceed (cleaned ready).dev.trace.length)
          :: rest) ∧
    (allSucceed (cleaned ready).dev.trace.length ≠ 0 →
      ∃ x, Cleanup allSucceed (cleaned ready) = Except.error (Failure.device x) ∧
        x.call = Call.cudaFree ready.sbt.raygenRecord ∧
        x.code = allSucceed (cleaned ready).dev.trace.length ∧
        issued (cleaned ready) x.state = [(x.call, x.code)]) ∧
    (∀ s₃, Cleanup allSucceed (cleaned ready) = Except.ok s₃ →
      issued (cleaned ready) s₃ = issued ready (cleaned ready) ∧
      s₃.dev.footprint = (cleaned ready).dev.footprint ∧
      s₃.dev.streams = (cleaned ready).dev.streams ∧
      s₃.dev.objects = (cleaned ready).dev.objects) :=
  second_Cleanup_reissues_releases allSucceed ready (cleaned ready) Init_allSucceed
    (Cleanup_allSucceed ready)

/-- C4 (counterexample).  `Init(); Cleanup(); Cleanup()`: both `Cleanup`
calls issue `cudaFree` on the ray-generation record (address 6), which is
live before the first and released by it.  This is so when the device
answers the second `cudaFree` with success, and also when it rejects it (the
24th call returns code 1): the call is issued and then raises. -/
theorem second_Cleanup_frees_released_record :
    (∃ s₁ s₂ s₃, Init allSucceed State.init = Except.ok s₁ ∧
      Cleanup allSucceed s₁ = Except.ok s₂ ∧ Cleanup allSucceed s₂ = Except.ok s₃ ∧
      s₁.sbt.raygenRecord = 6 ∧
      (6, 48, Role.raygenRecord) ∈ s₁.dev.footprint ∧
      (Call.cudaFree 6, 0) ∈ issued s₁ s₂ ∧
      s₂.dev.footprint = [] ∧
      (Call.cudaFree 6, 0) ∈ issued s₂ s₃) ∧
    (∃ s₁ s₂ x, Init (fun k => if k = 23 then 1 else 0) State.init = Except.ok s₁ ∧
      Cleanup (fun k => if k = 23 then 1 else 0) s₁ = Except.ok s₂ ∧
      Cleanup (fun k => if k = 23 then 1 else 0) s₂ = Except.error (Failure.device x) ∧
      (6, 48, Role.raygenRecord) ∈ s₁.dev.footprint ∧
      (Call.cudaFree 6, 0) ∈ issued s₁ s₂ ∧
      s₂.dev.footprint = [] ∧
      x.call = Call.cudaFree 6 ∧ issued s₂ x.state = [(Call.cudaFree 6, 1)]) :=
  ⟨⟨ready, cleaned ready, cleaned (cleaned ready), Init_allSucceed, Cleanup_allSucceed _,
    Cleanup_allSucceed _, by decide, by decide, by decide, by decide, by decide⟩,
   ⟨ready, cleaned ready,
    { call := Call.cudaFree 6, code := 1,
      state := { cleaned ready with dev := (cleaned ready).dev.log (Call.cudaFree 6) 1 } },
    rfl, rfl, rfl, by decide, by decide, by decide, rfl, by decide⟩⟩

/-! ## The binding table built by Init -/

/-- C6.  After a successful `Init` from program start the binding-table
descriptor holds: `raygenRecord`, the address of a live allocation of
`sizeof(RayGenSbtRecord)` bytes holding the header packed from the
ray-generation program group followed by the payload 0.462, 0.725, 0.0;
`missRecordBase`, the address of a different live allocation of
`sizeof(MissSbtRecord)` bytes whose header is packed from the miss program
group; `missRecordStrideInBytes = sizeof(MissSbtRecord)`;
`missRecordCount = 1`; every other field is zero. -/
theorem Init_binding_table (ok : Oracle) (s : State)
    (hInit : Init ok State.init = Except.ok s) :
    s.dev.lookup s.sbt.raygenRecord = some
      { addr := s.sbt.raygenRecord, size := RayGenSbtRecord.size, role := Role.raygenRecord,
        bytes := packedHeader s.raygen_prog_group
          ++ (floatBytes { digits := 462, scale := 3 } ++ floatBytes { digits := 725, scale := 3 }
              ++ floatBytes { digits := 0, scale := 0 })
          ++ List.replicate 4 Byte.undef } ∧
    ({ handle := s.raygen_prog_group, kind := ObjectKind.programGroup ProgramGroupKind.raygen }
      : Object) ∈ s.dev.objects ∧
    (∃ a, s.dev.lookup s.sbt.missRecordBase = some a ∧ a.addr = s.sbt.missRecordBase ∧
      a.size = MissSbtRecord.size ∧ a.role = Role.missRecord ∧
      a.bytes.take OPTIX_SBT_RECORD_HEADER_SIZE = packedHeader s.miss_prog_group) ∧
    ({ handle := s.miss_prog_group, kind := ObjectKind.programGroup ProgramGroupKind.miss }
      : Object) ∈ s.dev.objects ∧
    s.sbt.raygenRecord ≠ s.sbt.missRecordBase ∧
    s.sbt.missRecordStrideInBytes = MissSbtRecord.size ∧
    s.sbt.missRecordCount = 1 ∧
    s.sbt.exceptionRecord = 0 ∧
    s.sbt.hitgroupRecordBase = 0 ∧ s.sbt.hitgroupRecordStrideInBytes = 0 ∧
    s.sbt.hitgroupRecordCount = 0 ∧
    s.sbt.callablesRecordBase = 0 ∧ s.sbt.callablesRecordStrideInBytes = 0 ∧
    s.sbt.callablesRecordCount = 0 := by
  obtain rfl := Init_eq_ok ok s hInit
  refine ⟨by decide, by decide, ⟨_, rfl, ?_⟩, by decide, by decide, by decide, by decide,
    by decide, by decide, by decide, by decide, by decide, by decide, by decide⟩
  decide

/-- C6 (witness): `Init` with every call succeeding. -/
theorem Init_binding_table_witness :
    ready.dev.lookup ready.sbt.raygenRecord = some
      { addr := ready.sbt.raygenRecord, size := RayGenSbtRecord.size, role := Role.raygenRecord,
        bytes := packedHeader ready.raygen_prog_group
          ++ (floatBytes { digits := 462, scale := 3 } ++ floatBytes { digits := 725, scale := 3 }
              ++ floatBytes { digits := 0, scale := 0 })
          ++ List.replicate 4 Byte.undef } ∧
    ({ handle := ready.raygen_prog_group,
       kind := ObjectKind.programGroup ProgramGroupKind.raygen } : Object) ∈ ready.dev.objects ∧
    (∃ a, ready.dev.lookup ready.sbt.missRecordBase = some a ∧
      a.addr = ready.sbt.missRecordBase ∧
      a.size = MissSbtRecord.size ∧ a.role = Role.missRecord ∧
      a.bytes.take OPTIX_SBT_RECORD_HEADER_SIZE = packedHeader ready.miss_prog_group) ∧
    ({ handle := ready.miss_prog_group,
       kind := ObjectKind.programGroup ProgramGroupKind.miss } : Object) ∈ ready.dev.objects ∧
    ready.sbt.raygenRecord ≠ ready.sbt.missRecordBase ∧
    ready.sbt.missRecordStrideInBytes = MissSbtRecord.size ∧
    ready.sbt.missRecordCount = 1 ∧
    ready.sbt.exceptionRecord = 0 ∧
    ready.sbt.hitgroupRecordBase = 0 ∧ ready.sbt.hitgroupRecordStrideInBytes = 0 ∧
    ready.sbt.hitgroupRecordCount = 0 ∧
    ready.sbt.callablesRecordBase = 0 ∧ ready.sbt.callablesRecordStrideInBytes = 0 ∧
    ready.sbt.callablesRecordCount = 0 :=
  Init_binding_table allSucceed ready Init_allSucceed

/-! ## Record layout -/

/-- C10.  With a 32-byte header aligned to 16, `sizeof(SbtRecord<RayGenData>)`
(payload 12 bytes) and `sizeof(SbtRecord<int>)` (payload 4 bytes) are both
48, a multiple of 16.  So the miss-record upload of `Init`, which copies
`sizeof(MissSbtRecord)` bytes out of a host object of type `RayGenSbtRecord`,
stays inside that object and fills the whole miss-record allocation. -/
theorem miss_record_upload_in_bounds :
    RayGenData.size = 12 ∧ c_int.size = 4 ∧
    RayGenSbtRecord.size = 48 ∧ MissSbtRecord.size = 48 ∧
    16 ∣ RayGenSbtRecord.size ∧ 16 ∣ MissSbtRecord.size ∧
    RayGenSbtRecord.size = MissSbtRecord.size ∧
    (Call.cudaMemcpyHostToDevice ready.sbt.missRecordBase MissSbtRecord.size, 0)
      ∈ ready.dev.trace ∧
    MissSbtRecord.size ≤ (writeAt (uninitObject RayGenSbtRecord) 0
      (packedHeader ready.miss_prog_group)).length ∧
    (∃ a, ready.dev.lookup ready.sbt.missRecordBase = some a ∧
      a.size = MissSbtRecord.size ∧ a.bytes.length = a.size) := by
  refine ⟨by decide, by decide, by decide, by decide, by decide, by decide, by decide,
    by decide, by decide, ⟨_, rfl, ?_⟩⟩
  decide

/-! ## Launch in every lifecycle stage -/

/-- C5 (as amended).  The header has no lifecycle guard and no state error.
For every `width, height > 0` with `width * height ≤ 2^31 - 1`, and all
device calls succeeding, `Launch` in a state of any of the three stages
(before `Init`; after `Init` and any run of launches; after a `Cleanup`)
returns the host pixel buffer with `width * height` pixels; it is rejected
in none of them.  Each stage has such a state. -/
theorem Launch_ignores_lifecycle (ok : Oracle) (dims : List (Int × Int)) (w h : Int)
    (hok : ∀ k, ok k = 0) (hdims : ∀ d ∈ dims, resizable d.1 d.2)
    (hw : 0 < w) (hh : 0 < h) (hfit : w * h ≤ 2147483647) :
    (∀ stage s, Lifecycle.states ok stage s →
      ∃ s', Launch ok w h s = Except.ok (HostPtr.host_pixels_data, s') ∧
        ((HostPtr.host_pixels_data.deref s').length : Int) = w * h) ∧
    Lifecycle.states ok Lifecycle.Uninitialized State.init ∧
    (∃ s, (Init ok State.init >>= launches ok dims) = Except.ok s ∧
      Lifecycle.states ok Lifecycle.Ready s) ∧
    (∃ s₁ s₂, (Init ok State.init >>= launches ok dims) = Except.ok s₁ ∧
      Cleanup ok s₁ = Except.ok s₂ ∧ Lifecycle.states ok Lifecycle.Terminated s₂) := by
  obtain ⟨hrun, -⟩ := Init_launches_ok ok hok dims hdims
  obtain rfl := oracle_eq_allSucceed hok
  have hr : resizable w h := resizable_of_fits w h (le_of_lt (Int.mul_pos hw hh)) hfit
  refine ⟨?_, rfl, ⟨_, hrun, dims, hrun⟩,
    ⟨_, _, hrun, Cleanup_allSucceed _, dims, _, hrun, Cleanup_allSucceed _⟩⟩
  intro stage s _
  refine ⟨launched w h s, Launch_allSucceed w h s hr, ?_⟩
  show (((launched w h s).host_pixels.length : Nat) : Int) = w * h
  rw [launched_host_length w h s hr]
  exact toSizeT_wrapInt32_of_fits _ (le_of_lt (Int.mul_pos hw hh)) hfit

/-- C5 (witness): launches of 512 × 384 around `Init(); Launch(64, 64); Cleanup()`. -/
theorem Launch_ignores_lifecycle_witness :
    (∀ stage s, Lifecycle.states allSucceed stage s →
      ∃ s', Launch allSucceed 512 384 s = Except.ok (HostPtr.host_pixels_data, s') ∧
        ((HostPtr.host_pixels_data.deref s').length : Int) = 512 * 384) ∧
    Lifecycle.states allSucceed Lifecycle.Uninitialized State.init ∧
    (∃ s, (Init allSucceed State.init >>= launches allSucceed [(64, 64)]) = Except.ok s ∧
      Lifecycle.states allSucceed Lifecycle.Ready s) ∧
    (∃ s₁ s₂, (Init allSucceed State.init >>= launches allSucceed [(64, 64)]) = Except.ok s₁ ∧
      Cleanup allSucceed s₁ = Except.ok s₂ ∧
      Lifecycle.states allSucceed Lifecycle.Terminated s₂) :=
  Launch_ignores_lifecycle allSucceed [(64, 64)] 512 384 (fun _ => rfl) (by decide)
    (by decide) (by decide) (by decide)

/-- C5 (counterexample).  With every device call succeeding, `Launch(1, 1)`
before `Init`, and `Launch(1, 1)` after `Init(); Cleanup()`, both return the
host buffer (holding one pixel) instead of being rejected.  On a device that
rejects `optixLaunch` on the null pipeline, `Launch(1, 1)` before `Init`
throws that device error, and only after it has allocated a framebuffer, a
stream and a parameter block. -/
theorem Launch_outside_Ready_returns_buffer :
    (∃ s', Launch allSucceed 1 1 State.init = Except.ok (HostPtr.host_pixels_data, s') ∧
      (HostPtr.host_pixels_data.deref s').length = 1) ∧
    (∃ s₁ s₂ s₃, Init allSucceed State.init = Except.ok s₁ ∧
      Cleanup allSucceed s₁ = Except.ok s₂ ∧
      Launch allSucceed 1 1 s₂ = Except.ok (HostPtr.host_pixels_data, s₃) ∧
      (HostPtr.host_pixels_data.deref s₃).length = 1) ∧
    (∃ x, Launch (fun k => if k = 5 then 1 else 0) 1 1 State.init
        = Except.error (Failure.device x) ∧
      x.call = Call.optixLaunch 0 2 3 16 {} 1 1 1 ∧ x.code = 1 ∧
      x.state.dev.footprint = [(1, 4, Role.framebuffer), (3, 16, Role.launchParams)] ∧
      x.state.dev.streams = [2]) :=
  ⟨⟨launched 1 1 State.init, Launch_allSucceed _ _ _ (by decide), by decide⟩,
   ⟨ready, cleaned ready, launched 1 1 (cleaned ready), Init_allSucceed, Cleanup_allSucceed _,
    Launch_allSucceed _ _ _ (by decide), by decide⟩,
   ⟨_, rfl, by decide, by decide, by decide, by decide⟩⟩

/-! ## Error handling -/

theorem Launch_allSucceed_not_resizable (w h : Int) (s : State) (hr : ¬ resizable w h) :
    Launch allSucceed w h s
      = Except.error (Failure.host HostFault.length_error (launched w h s)) := by
  have hr' : vector_max_size < toSizeT (wrapInt32 (w * h)) := Nat.lt_of_not_le hr
  simp [launched, Launch, CUDA_SYNC_CHECK, checked_allSucceed, checkedNew_allSucceed,
    host_pixels_resize_of_not_resizable hr', bind, Except.bind, pure, Except.pure,
    Failure.state]

theorem launched_trace_not_resizable (w h : Int) (s : State) (hr : ¬ resizable w h) :
    (launched w h s).dev.trace = s.dev.trace ++
      [(Call.cudaFree s.device_pixels, 0), (Call.cudaMalloc (framebufferBytes w h), 0),
       (Call.cudaStreamCreate, 0), (Call.cudaMalloc Params.size, 0),
       (Call.cudaMemcpyHostToDevice (s.dev.next + 2) Params.size, 0),
       (Call.optixLaunch s.pipeline (s.dev.next + 1) (s.dev.next + 2) Params.size s.sbt
          (toUInt32 w) (toUInt32 h) 1, 0),
       (Call.cudaDeviceSynchronize, 0), (Call.cudaSetDevice 0, 0),
       (Call.cudaStreamSynchronize 0, 0)] := by
  have hr' : vector_max_size < toSizeT (wrapInt32 (w * h)) := Nat.lt_of_not_le hr
  simp [launched, Launch, CUDA_SYNC_CHECK, checked_allSucceed, checkedNew_allSucceed,
    host_pixels_resize_of_not_resizable hr', bind, Except.bind, pure, Except.pure,
    Failure.state, framebufferBytes]

/-- C7 (as amended).  With each CUDA/OptiX call returning a result code and
the check macros raising on a non-success code, on every device and from
every state each operation logs and ends exactly as the fail-fast run of its
steps in source order does: calls are issued in order while they succeed, the
first non-success code ends the operation with the exception naming that
call, and no further call is issued.  An operation raises a device-call
exception if and only if a call it issued returned a non-success code.
`Cleanup` returns exactly when its seven calls succeed.  `Launch` returns
exactly when its ten calls succeed and `host_pixels.resize` accepts the
size; `Init` returns exactly when its sixteen calls succeed and `_getcwd`
does not return null: both can fail with no device call failing. -/
theorem device_calls_are_checked (ok : Oracle) (s : State) (w h : Int) :
    (Follows ok s id (Init_script s) (Init ok s) ∧ FailFast s id (Init ok s) ∧
      ((∃ s', Init ok s = Except.ok s')
        ↔ s.cwd ≠ none ∧ ∀ i, i < 16 → ok (s.dev.trace.length + i) = 0)) ∧
    (Follows ok s Prod.snd (Launch_script w h s) (Launch ok w h s) ∧
      FailFast s Prod.snd (Launch ok w h s) ∧
      ((∃ r, Launch ok w h s = Except.ok r)
        ↔ resizable w h ∧ ∀ i, i < 10 → ok (s.dev.trace.length + i) = 0)) ∧
    (Follows ok s id (Cleanup_script s) (Cleanup ok s) ∧ FailFast s id (Cleanup ok s) ∧
      ((∃ s', Cleanup ok s = Except.ok s')
        ↔ ∀ i, i < 7 → ok (s.dev.trace.length + i) = 0)) := by
  refine ⟨⟨Init_follows ok s, (Init_follows ok s).failFast, ?_⟩,
    ⟨Launch_follows ok w h s, (Launch_follows ok w h s).failFast, ?_⟩,
    ⟨Cleanup_follows ok s, (Cleanup_follows ok s).failFast, ?_⟩⟩
  · rw [(Init_follows ok s).returns_iff, follow_returned_iff]
    have hfault : anyFault (Init_script s) = s.cwd.isNone := by
      simp [Init_script, anyFault]
    have hcount : callCount (Init_script s) = 16 := rfl
    rw [hfault, hcount]
    cases s.cwd <;> simp
  · rw [(Launch_follows ok w h s).returns_iff, follow_returned_iff]
    have hfault : anyFault (Launch_script w h s) = decide (¬ resizable w h) := by
      simp [Launch_script, anyFault]
    have hcount : callCount (Launch_script w h s) = 10 := rfl
    rw [hfault, hcount]
    by_cases hr : resizable w h <;> simp [hr]
  · rw [(Cleanup_follows ok s).returns_iff, follow_returned_iff]
    have hfault : anyFault (Cleanup_script s) = false := rfl
    have hcount : callCount (Cleanup_script s) = 7 := rfl
    rw [hfault, hcount]
    simp

/-- C7 (counterexample).  After `Init`, with every device call succeeding,
`Launch(46341, 46341)` fails: the `int` product wraps to a negative value,
`host_pixels.resize` throws `std::length_error`, and the nine device calls
issued before it all returned success. -/
theorem Launch_fails_without_device_error :
    (0 : Int) < 46341 ∧ (46341 : Int) ≤ 2147483647 ∧
    wrapInt32 (46341 * 46341) = -2147479015 ∧
    ∃ s s', Init allSucceed State.init = Except.ok s ∧
      Launch allSucceed 46341 46341 s
        = Except.error (Failure.host HostFault.length_error s') ∧
      (issued s s').length = 9 ∧ (∀ e ∈ issued s s', e.2 = 0) := by
  refine ⟨by decide, by decide, by decide, ready, launched 46341 46341 ready, Init_allSucceed,
    Launch_allSucceed_not_resizable _ _ _ (by decide), ?_, ?_⟩
  · rw [issued_of_trace_eq (launched_trace_not_resizable _ _ _ (by decide))]
    rfl
  · rw [issued_of_trace_eq (launched_trace_not_resizable _ _ _ (by decide))]
    decide

end Optix7
